import Mathlib

/-!
# Firecracker task driver: per-task VM lifecycle

A shallow embedding of `litegix/vm_manager.go`, `litegix/handle.go` and
`litegix/driver.go`.

* Go `int64` values are integers wrapped into `[-2^63, 2^63)` after every
  arithmetic operation; `/` is Go's truncated division.
* A Go call either returns a value, returns an error, or panics (a nil pointer
  dereference): `Outcome`.
* Subprocesses, the hypervisor client and the clock are external: each call
  receives their results in an environment record.
* The host file system is the list of directories that exist. It records the
  directories made and removed by the Go code itself (`os.MkdirAll`,
  `os.RemoveAll`); a system call that fails changes nothing. Files written by
  subprocesses and the scratch directories of `os.MkdirTemp` are not recorded.
* A task id is one path component.
* `time.Time` is a natural number, `0` the zero time.
* Two behaviours of the libraries are part of the embedding, because the
  driver's own behaviour depends on them. `machine.Start` of the hypervisor
  client validates the machine configuration and refuses fewer than one vCPU
  or less than one MiB of memory (`validMachineCfg`). The snapshot written by
  `SetDriverState` leaves out the raw driver configuration of the task
  configuration, an unexported field (`DTaskConfig.persisted`).
-/

namespace Litegix

/-! ## Go values -/

/-- Two's-complement wrap of an integer into the range of Go's `int64`. -/
def wrapInt64 (x : Int) : Int :=
  (x + 9223372036854775808) % 18446744073709551616 - 9223372036854775808

/-- Go `a * b` on `int64`. -/
def mulInt64 (a b : Int) : Int := wrapInt64 (a * b)

/-- Go `a + b` on `int64`. -/
def addInt64 (a b : Int) : Int := wrapInt64 (a + b)

/-- Go `a - b` on `int64`. -/
def subInt64 (a b : Int) : Int := wrapInt64 (a - b)

/-- Go `a / b` on `int64` (quotient truncated toward zero). -/
def divInt64 (a b : Int) : Int := wrapInt64 (Int.tdiv a b)

/-- Go `uint32(x)` for an `int` value. -/
def toUint32 (x : Int) : Nat := (x % 4294967296).toNat

/-- What a Go call does: return a value, return an error, or panic. -/
inductive Outcome (α : Type) where
  | ok (a : α)
  | err (msg : String)
  | fault
  deriving DecidableEq, Repr

/-- The call returned an error value. -/
def Outcome.isErr {α : Type} : Outcome α → Bool
  | .err _ => true
  | _ => false

/-- The call returned without error. -/
def Outcome.isOk {α : Type} : Outcome α → Bool
  | .ok _ => true
  | _ => false

/-! ## Host file system -/

/-- A host path as its list of components. -/
abbrev Path := List String

/-- Go `filepath.Join(p, name)` for a single further component. -/
def joinPath (p : Path) (name : String) : Path := p ++ [name]

/-- Go `filepath.Dir(p)`. -/
def dirPath (p : Path) : Path := p.dropLast

/-- The directories that exist on the host. -/
abbrev HostFS := List Path

/-- Successful `os.MkdirAll(p, 0755)`: afterwards `p` exists. -/
def mkdirAll (fs : HostFS) (p : Path) : HostFS :=
  if p ∈ fs then fs else p :: fs

/-- Successful `os.RemoveAll(p)`: `p` and everything beneath it are gone. -/
def removeAll (fs : HostFS) (p : Path) : HostFS :=
  fs.filter (fun q => !(p.isPrefixOf q))

/-! ## Configuration and VM records (driver.go, vm_manager.go) -/

/-- Go `Config`: plugin configuration. -/
structure Config where
  VmlinuxPath : String
  RootfsBasePath : Path
  ContainerdSocket : String
  deriving DecidableEq, Repr

/-- Go `TaskConfig`: per-task driver configuration. -/
structure TaskConfig where
  Image : String
  VpuCount : Int
  MemSize : Int
  Args : String
  Command : String
  Env : List String
  deriving DecidableEq, Repr

/-- Go `models.Drive` as filled by `CreateAndStartVM`. -/
structure Drive where
  DriveID : String
  PathOnHost : Path
  IsRootDevice : Bool
  IsReadOnly : Bool
  deriving DecidableEq, Repr

/-- Go `firecracker.Config` as filled by `CreateAndStartVM`. -/
structure FcConfig where
  SocketPath : Path
  KernelImagePath : String
  KernelArgs : String
  Drives : List Drive
  VcpuCount : Int
  MemSizeMib : Int
  deriving DecidableEq, Repr

/-- Go `*firecracker.Machine`: the handle returned by `firecracker.NewMachine`. -/
structure Machine where
  cfg : FcConfig
  deriving DecidableEq, Repr

/-- Go `VMInfo`. The `Machine` pointer may be nil. -/
structure VMInfo where
  TaskID : String
  VMID : String
  Machine : Option Machine
  SocketPath : Path
  RootfsPath : Path
  PID : Nat
  CreatedAt : Nat
  deriving DecidableEq, Repr

/-- Go `VMStatus`. -/
structure VMStatus where
  State : String
  PID : Nat := 0
  ExitCode : Option Nat := none
  ExitedAt : Option Nat := none
  Error : Option String := none
  deriving DecidableEq, Repr

def VMStateRunning : String := "running"

def VMStateStopped : String := "stopped"

def VMStateUnknown : String := "unknown"

/-! ## Image materialisation (vm_manager.go) -/

/-- Results of the subprocesses and system calls of `pullOCIImage`. -/
structure PullEnv where
  dockerPull : Bool
  mkdirTarget : Bool
  dockerSave : Bool
  tarExtract : Bool
  deriving DecidableEq, Repr

/-- Go `pullOCIImage`: pull, create the target directory, save, extract. -/
def pullOCIImage (e : PullEnv) (fs : HostFS) (targetDir : Path) : HostFS × Except String Unit :=
  if !e.dockerPull then (fs, .error "failed to pull image with docker")
  else if !e.mkdirTarget then (fs, .error "failed to create target directory")
  else
    let fs1 := mkdirAll fs targetDir
    if !e.dockerSave then (fs1, .error "failed to save image")
    else if !e.tarExtract then (fs1, .error "failed to extract image tar")
    else (fs1, .ok ())

/-- The size computation of `createRootfs` (lines 186-191): the rootfs size in
MiB for a merged directory of `size` bytes. -/
def rootfsSizeMB (size : Int) : Int :=
  let sizeWithBuffer := divInt64 (mulInt64 size 3) 2
  let sizeMB := divInt64 (subInt64 (addInt64 sizeWithBuffer (1024 * 1024)) 1) (1024 * 1024)
  if sizeMB < 100 then 100 else sizeMB

/-- Results of the file reads, subprocesses and system calls of `createRootfs`.
`manifests` is the decoded `manifest.json` (the `Layers` of each entry, `none`
when decoding fails); `size` is `strconv.ParseInt` of the first field of the
output of `du -sb` (`none` when parsing fails). -/
structure RootfsEnv where
  readManifest : Bool
  manifests : Option (List (List String))
  mkdirTempBuild : Bool
  layerOk : String → Bool
  duOk : Bool
  size : Option Int
  ddOk : Bool
  mkfsOk : Bool
  mkdirTempMount : Bool
  mountOk : Bool
  cpOk : Bool

/-- What `createRootfs` did: its return value and the `count=` argument it
passed to `dd` (`none` when `dd` was not reached). -/
structure RootfsResult where
  result : Except String Unit
  ddCount : Option Int

/-- Go `createRootfs`. -/
def createRootfs (e : RootfsEnv) : RootfsResult :=
  if !e.readManifest then ⟨.error "failed to read manifest", none⟩
  else match e.manifests with
  | none => ⟨.error "failed to parse manifest", none⟩
  | some [] => ⟨.error "no manifests found in image", none⟩
  | some (layers :: _) =>
    if !e.mkdirTempBuild then ⟨.error "failed to create temp dir", none⟩
    else match layers.find? (fun l => !e.layerOk l) with
    | some l => ⟨.error ("failed to extract layer " ++ l), none⟩
    | none =>
      if !e.duOk then ⟨.error "failed to calculate directory size", none⟩
      else match e.size with
      | none => ⟨.error "failed to parse size", none⟩
      | some size =>
        let sizeMB := rootfsSizeMB size
        if !e.ddOk then ⟨.error "failed to create rootfs file", some sizeMB⟩
        else if !e.mkfsOk then ⟨.error "failed to format rootfs", some sizeMB⟩
        else if !e.mkdirTempMount then ⟨.error "failed to create mount dir", some sizeMB⟩
        else if !e.mountOk then ⟨.error "failed to mount rootfs", some sizeMB⟩
        else if !e.cpOk then ⟨.error "failed to copy filesystem", some sizeMB⟩
        else ⟨.ok (), some sizeMB⟩

/-- The validation of the machine configuration that `machine.Start` of the
hypervisor client runs before it boots the VM: a configuration with fewer than
one vCPU or less than one MiB of memory is refused. -/
def validMachineCfg (c : FcConfig) : Bool :=
  decide (1 ≤ c.VcpuCount) && decide (1 ≤ c.MemSizeMib)

/-- Results of the system calls and hypervisor calls of `CreateAndStartVM`:
`startOk` is whether `machine.Start` boots a machine whose configuration it
has validated, `pid` is the result of `machine.PID()` (`none` when it errors),
`now` the clock. -/
structure CreateEnv where
  mkdirVM : Bool
  pull : PullEnv
  rootfs : RootfsEnv
  newMachineOk : Bool
  startOk : Bool
  pid : Option Int
  now : Nat

/-! ## VM manager (vm_manager.go) -/

/-- Go `firecrackerVMManager.CreateAndStartVM`. Returns the host file system
after the call and the VM record or the error. The conversion `int64(...)` of
the two counts keeps their value. `machine.Start` fails when the machine
configuration does not pass `validMachineCfg`, and otherwise as the
environment says. -/
def CreateAndStartVM (c : Config) (e : CreateEnv) (fs : HostFS) (config : TaskConfig)
    (taskID : String) : HostFS × Except String VMInfo :=
  let vmDir := joinPath c.RootfsBasePath taskID
  if !e.mkdirVM then (fs, .error "failed to create VM directory")
  else
    let fs1 := mkdirAll fs vmDir
    let imageDir := joinPath vmDir "image"
    let rootfsPath := joinPath vmDir "rootfs.ext4"
    let socketPath := joinPath vmDir "firecracker.sock"
    match pullOCIImage e.pull fs1 imageDir with
    | (fs2, .error _) => (fs2, .error "failed to pull OCI image")
    | (fs2, .ok _) =>
      match (createRootfs e.rootfs).result with
      | .error _ => (fs2, .error "failed to create rootfs")
      | .ok _ =>
        let drives : List Drive :=
          [{ DriveID := "rootfs", PathOnHost := rootfsPath, IsRootDevice := true,
             IsReadOnly := false }]
        let fcConfig : FcConfig :=
          { SocketPath := socketPath, KernelImagePath := c.VmlinuxPath,
            KernelArgs := "console=ttyS0 reboot=k panic=1 pci=off", Drives := drives,
            VcpuCount := config.VpuCount, MemSizeMib := config.MemSize }
        if !e.newMachineOk then (fs2, .error "failed to create firecracker machine")
        else
          let machine : Machine := ⟨fcConfig⟩
          if !(validMachineCfg fcConfig && e.startOk) then
            (fs2, .error "failed to start firecracker VM")
          else match e.pid with
          | none => (fs2, .error "failed to get VM PID")
          | some pid =>
            (fs2, .ok { TaskID := taskID, VMID := taskID, Machine := some machine,
                        SocketPath := socketPath, RootfsPath := rootfsPath,
                        PID := toUint32 pid, CreatedAt := e.now })

/-- A call on the hypervisor machine handle. -/
inductive HvCall where
  | shutdown
  | stopVMM
  | pid
  deriving DecidableEq, Repr

/-- Results of the hypervisor calls of `StopVM` (`none` is a nil error). -/
structure StopEnv where
  shutdownErr : Option String
  stopVMMErr : Option String
  deriving DecidableEq, Repr

/-- Go `firecrackerVMManager.StopVM`: its outcome and the hypervisor calls it made.
A nil `vmInfo` or a nil `Machine` is dereferenced. -/
def StopVM (vmInfo : Option VMInfo) (e : StopEnv) : Outcome Unit × List HvCall :=
  match vmInfo with
  | none => (.fault, [])
  | some v =>
    match v.Machine with
    | none => (.fault, [])
    | some _ =>
      match e.shutdownErr with
      | some _ =>
        match e.stopVMMErr with
        | some msg => (.err msg, [.shutdown, .stopVMM])
        | none => (.ok (), [.shutdown, .stopVMM])
      | none => (.ok (), [.shutdown])

/-- Results of the hypervisor call and the system call of `DestroyVM`. -/
structure DestroyEnv where
  stopVMMErr : Option String
  removeAllOk : Bool
  deriving DecidableEq, Repr

/-- Go `firecrackerVMManager.DestroyVM`: the host file system afterwards, the
outcome, and the hypervisor calls made. The first statement reads
`vmInfo.TaskID`, so a nil `vmInfo` panics. -/
def DestroyVM (vmInfo : Option VMInfo) (e : DestroyEnv) (fs : HostFS) :
    HostFS × Outcome Unit × List HvCall :=
  match vmInfo with
  | none => (fs, .fault, [])
  | some v =>
    let calls : List HvCall := if v.Machine.isSome then [.stopVMM] else []
    let vmDir := dirPath v.RootfsPath
    if !e.removeAllOk then (fs, .err "failed to clean up VM directory", calls)
    else (removeAll fs vmDir, .ok (), calls)

/-- Results of the hypervisor call and the system calls of `GetVMStatus`:
`pid` is the result of `Machine.PID()` (`none` when it errors). -/
structure ProbeEnv where
  pid : Option Int
  findProcessOk : Bool
  signalOk : Bool
  deriving DecidableEq, Repr

/-- Go `firecrackerVMManager.GetVMStatus`. The first statement reads
`vmInfo.TaskID`, so a nil `vmInfo` panics. -/
def GetVMStatus (vmInfo : Option VMInfo) (e : ProbeEnv) : Outcome VMStatus :=
  match vmInfo with
  | none => .fault
  | some v =>
    match v.Machine with
    | none => .ok { State := VMStateUnknown }
    | some _ =>
      match e.pid with
      | none => .ok { State := VMStateStopped, PID := v.PID }
      | some pid =>
        if pid = 0 then .ok { State := VMStateStopped, PID := v.PID }
        else if !e.findProcessOk then .ok { State := VMStateStopped, PID := v.PID }
        else if !e.signalOk then .ok { State := VMStateStopped, PID := v.PID }
        else .ok { State := VMStateRunning, PID := v.PID }

/-! ## Task handle and monitor (handle.go) -/

/-- Go `drivers.TaskState`, the values the driver uses. -/
inductive ProcState where
  | TaskStateUnknown
  | TaskStateRunning
  | TaskStateExited
  deriving DecidableEq, Repr

/-- Go `drivers.ExitResult`. Its zero value is the default exit result. -/
structure ExitResult where
  ExitCode : Int := 0
  Signal : Int := 0
  OOMKilled : Bool := false
  Err : Option String := none
  deriving DecidableEq, Repr

/-- Go `drivers.TaskConfig`, the fields the driver reads. `driverConfig` is what
`DecodeDriverConfig` yields on this task configuration (`none` when decoding
fails, as it does when the raw driver configuration is missing). -/
structure DTaskConfig where
  ID : String
  Name : String
  AllocID : String
  driverConfig : Option TaskConfig
  deriving DecidableEq, Repr

/-- What is left of a `drivers.TaskConfig` that went through the snapshot of
`SetDriverState` and `GetDriverState`: the raw driver configuration is held in
an unexported field, which the encoding leaves out, so `DecodeDriverConfig` on
the decoded value fails. -/
def DTaskConfig.persisted (c : DTaskConfig) : DTaskConfig :=
  { c with driverConfig := none }

/-- Where the goroutine of `taskHandle.run` is: not spawned, spawned and not
yet past its first critical section, in the ticker loop, returned, or panicked. -/
inductive MonitorPhase where
  | absent
  | spawned
  | looping
  | returned
  | panicked
  deriving DecidableEq, Repr

/-- Go `taskHandle`. `completedAt = 0` is the zero `time.Time`; `exitResult` and
`vmInfo` are pointers that may be nil. `monitor` records the progress of the
goroutine running `run` on this handle. -/
structure taskHandle where
  taskConfig : DTaskConfig
  startedAt : Nat
  completedAt : Nat := 0
  exitResult : Option ExitResult := none
  procState : ProcState
  vmInfo : Option VMInfo := none
  monitor : MonitorPhase := .absent
  deriving DecidableEq, Repr

/-- Go `drivers.TaskStatus` as built by `taskHandle.TaskStatus`. -/
structure TaskStatus where
  ID : String
  Name : String
  State : ProcState
  StartedAt : Nat
  CompletedAt : Nat
  ExitResult : Option ExitResult
  pid : String
  vm_id : String
  deriving DecidableEq, Repr

/-- Go `taskHandle.TaskStatus`. -/
def taskHandle.TaskStatus (h : taskHandle) : TaskStatus :=
  let attrs : String × String :=
    match h.vmInfo with
    | some v => (toString v.PID, v.VMID)
    | none => ("", "")
  { ID := h.taskConfig.ID, Name := h.taskConfig.Name, State := h.procState,
    StartedAt := h.startedAt, CompletedAt := h.completedAt, ExitResult := h.exitResult,
    pid := attrs.1, vm_id := attrs.2 }

/-- Go `taskHandle.IsRunning`. -/
def taskHandle.IsRunning (h : taskHandle) : Bool :=
  h.procState = .TaskStateRunning

/-- The first critical section of `taskHandle.run` (lines 64-68): a nil
`exitResult` becomes the default one; the goroutine then enters the loop. -/
def runStart (h : taskHandle) : taskHandle :=
  { h with
    exitResult := (match h.exitResult with
      | none => some {}
      | some r => some r),
    monitor := .looping }

/-- One iteration of the loop of `taskHandle.run` (lines 76-113), given what
`h.vmManager.GetVMStatus(ctx, h.vmInfo)` did and the reading of `time.Now()`. -/
def runTick (h : taskHandle) (probe : Outcome VMStatus) (now : Nat) : taskHandle :=
  match probe with
  | .fault => { h with monitor := .panicked }
  | .err msg =>
    match h.exitResult with
    | none => { h with monitor := .panicked }
    | some r =>
      { h with exitResult := some { r with Err := some msg },
               procState := .TaskStateUnknown, completedAt := now, monitor := .returned }
  | .ok status =>
    if status.State = VMStateRunning then
      { h with procState := .TaskStateRunning }
    else if status.State = VMStateStopped then
      let h1 : taskHandle := { h with procState := .TaskStateExited }
      let completed : Nat :=
        match status.ExitedAt with
        | some t => t
        | none => now
      match status.ExitCode, h1.exitResult with
      | some _, none => { h1 with monitor := .panicked }
      | some c, some r =>
        { h1 with exitResult := some { r with ExitCode := (c : Int) },
                  completedAt := completed, monitor := .returned }
      | none, _ => { h1 with completedAt := completed, monitor := .returned }
    else if status.State = VMStateUnknown then
      { h with procState := .TaskStateUnknown, completedAt := now, monitor := .returned }
    else h

/-- One scheduling step of the monitor goroutine of a handle whose VM manager
is the Firecracker one: the first critical section, then one tick per step. -/
def monitorStep (h : taskHandle) (e : ProbeEnv) (now : Nat) : taskHandle :=
  match h.monitor with
  | .spawned => runStart h
  | .looping => runTick h (GetVMStatus h.vmInfo e) now
  | _ => h

/-- One poll of `handleWait` (driver.go lines 363-382): the exit result sent on
the channel, if the handle is in a final state. -/
def waitPoll (h : taskHandle) : Option ExitResult :=
  if h.procState = .TaskStateExited ∨ h.procState = .TaskStateUnknown then
    match h.exitResult with
    | some r => some r
    | none => some {}
  else none

/-- The monitor goroutine run over a sequence of scheduling steps, each with
what the probe finds and the reading of the clock at that step. -/
def runMonitor (h : taskHandle) (steps : List (ProbeEnv × Nat)) : taskHandle :=
  steps.foldl (fun acc t => monitorStep acc t.1 t.2) h

/-- What holds of a handle made by `StartTask` while its monitor advances: the
VM record and its machine handle are present, and the handle is either running
with a live monitor or completed with a returned monitor. -/
def StartedInv (h : taskHandle) : Prop :=
  (∃ v m, h.vmInfo = some v ∧ v.Machine = some m) ∧
    (((h.monitor = .spawned ∨ h.monitor = .looping) ∧ h.procState = .TaskStateRunning) ∨
      (h.monitor = .returned ∧ h.completedAt ≠ 0))

/-! ## Task registry -/

/-- Modelled from the spec: the type `taskStore` and its methods `Get`, `Set`,
`Delete` are declared outside the files at hand. Section 4.5: a mapping from
task id to task handle supporting Get, Set and Delete. -/
abbrev taskStore := List (String × taskHandle)

/-- Modelled from the spec: `taskStore.Get`, lookup of a task id. -/
def taskStore.Get (s : taskStore) (id : String) : Option taskHandle :=
  List.lookup id s

/-- Modelled from the spec: `taskStore.Set`, insert or replace the entry of a task id. -/
def taskStore.Set (s : taskStore) (id : String) (h : taskHandle) : taskStore :=
  (id, h) :: s.filter (fun p => p.1 != id)

/-- Modelled from the spec: `taskStore.Delete`, remove the entry of a task id. -/
def taskStore.Delete (s : taskStore) (id : String) : taskStore :=
  s.filter (fun p => p.1 != id)

/-! ## Driver facade (driver.go) -/

/-- A call on the VM manager made by the driver. -/
inductive VMCall where
  | createAndStartVM (taskID : String)
  | stopVM (vmInfo : Option VMInfo)
  | destroyVM (vmInfo : Option VMInfo)
  deriving DecidableEq, Repr

/-- The state the driver operations act on: the plugin configuration, the task
registry, the host file system, and the calls made on the VM manager so far.
The VM manager is the Firecracker one installed by `SetConfig`. -/
structure Driver where
  config : Config
  tasks : taskStore
  fs : HostFS
  vmCalls : List VMCall := []
  deriving DecidableEq, Repr

/-- Go `TaskState`: the snapshot stored on the orchestrator handle. -/
structure TaskState where
  TaskConfig : DTaskConfig
  StartedAt : Nat
  ContainerName : String
  deriving DecidableEq, Repr

/-- What `GetDriverState` decodes from a state written by `SetDriverState`:
the task state with its task configuration as persisted. -/
def TaskState.snapshot (ts : TaskState) : TaskState :=
  { ts with TaskConfig := ts.TaskConfig.persisted }

/-- Go `drivers.TaskHandle`: `DriverState` is the stored driver state (`none`
when it does not decode). -/
structure DriverHandle where
  Version : Nat
  Config : DTaskConfig
  DriverState : Option TaskState
  deriving DecidableEq, Repr

def taskHandleVersion : Nat := 1

/-- Go `drivers.ErrTaskNotFound`. -/
def ErrTaskNotFound : String := "task not found for given id"

/-- External results of one `StartTask` call. -/
structure StartEnv where
  create : CreateEnv
  setDriverStateOk : Bool
  destroy : DestroyEnv
  now : Nat

/-- Go `LitegixDriverPlugin.StartTask`. -/
def StartTask (d : Driver) (e : StartEnv) (cfg : DTaskConfig) : Driver × Outcome DriverHandle :=
  if (d.tasks.Get cfg.ID).isSome then
    (d, .err ("task with ID " ++ cfg.ID ++ " already started"))
  else match cfg.driverConfig with
  | none => (d, .err "failed to decode driver config")
  | some driverConfig =>
    let r := CreateAndStartVM d.config e.create d.fs driverConfig cfg.ID
    let d1 : Driver := { d with fs := r.1, vmCalls := d.vmCalls ++ [.createAndStartVM cfg.ID] }
    match r.2 with
    | .error _ => (d1, .err "failed to create and start VM")
    | .ok vmInfo =>
      let h : taskHandle :=
        { taskConfig := cfg, startedAt := e.now, procState := .TaskStateRunning,
          vmInfo := some vmInfo }
      let driverState : TaskState :=
        { TaskConfig := cfg, ContainerName := cfg.Name ++ "-" ++ cfg.AllocID,
          StartedAt := h.startedAt }
      if !e.setDriverStateOk then
        let r2 := DestroyVM (some vmInfo) e.destroy d1.fs
        ({ d1 with fs := r2.1, vmCalls := d1.vmCalls ++ [.destroyVM (some vmInfo)] },
          .err "failed to set driver state")
      else
        ({ d1 with tasks := d1.tasks.Set cfg.ID { h with monitor := .spawned } },
          .ok { Version := taskHandleVersion, Config := cfg,
                DriverState := some driverState.snapshot })

/-- Go `LitegixDriverPlugin.RecoverTask`. The task state is the one that
`GetDriverState` decodes, that is the stored state as a snapshot. -/
def RecoverTask (d : Driver) (handle : Option DriverHandle) : Driver × Outcome Unit :=
  match handle with
  | none => (d, .err "error: handle cannot be nil")
  | some handle =>
    if (d.tasks.Get handle.Config.ID).isSome then (d, .ok ())
    else match handle.DriverState.map TaskState.snapshot with
    | none => (d, .err "failed to decode task state from handle")
    | some taskState =>
      match taskState.TaskConfig.driverConfig with
      | none => (d, .err "failed to decode driver config")
      | some _ =>
        let h : taskHandle :=
          { taskConfig := taskState.TaskConfig, startedAt := taskState.StartedAt,
            procState := .TaskStateUnknown }
        ({ d with tasks := d.tasks.Set taskState.TaskConfig.ID { h with monitor := .spawned } },
          .ok ())

/-- Go `LitegixDriverPlugin.WaitTask`: the lookup; on success the waiter
goroutine polls the handle with `waitPoll`. -/
def WaitTask (d : Driver) (taskID : String) : Outcome taskHandle :=
  match d.tasks.Get taskID with
  | none => .err ErrTaskNotFound
  | some handle => .ok handle

/-- Go `LitegixDriverPlugin.StopTask`. -/
def StopTask (d : Driver) (e : StopEnv) (taskID : String) : Driver × Outcome Unit :=
  match d.tasks.Get taskID with
  | none => (d, .err ErrTaskNotFound)
  | some handle =>
    let d1 : Driver := { d with vmCalls := d.vmCalls ++ [.stopVM handle.vmInfo] }
    match (StopVM handle.vmInfo e).1 with
    | .err _ => (d1, .err "failed to stop VM")
    | .fault => (d1, .fault)
    | .ok _ => (d1, .ok ())

/-- Go `LitegixDriverPlugin.DestroyTask`. -/
def DestroyTask (d : Driver) (e : DestroyEnv) (taskID : String) (force : Bool) :
    Driver × Outcome Unit :=
  match d.tasks.Get taskID with
  | none => (d, .err ErrTaskNotFound)
  | some handle =>
    if handle.IsRunning && !force then (d, .err "cannot destroy running task")
    else
      let r := DestroyVM handle.vmInfo e d.fs
      let d1 : Driver := { d with fs := r.1, vmCalls := d.vmCalls ++ [.destroyVM handle.vmInfo] }
      match r.2.1 with
      | .fault => (d1, .fault)
      | _ => ({ d1 with tasks := d1.tasks.Delete taskID }, .ok ())

/-- Go `LitegixDriverPlugin.InspectTask`. -/
def InspectTask (d : Driver) (taskID : String) : Outcome TaskStatus :=
  match d.tasks.Get taskID with
  | none => .err ErrTaskNotFound
  | some handle => .ok handle.TaskStatus

/-- Go `LitegixDriverPlugin.TaskStats`: the lookup; on success a stream is returned. -/
def TaskStats (d : Driver) (taskID : String) : Outcome Unit :=
  match d.tasks.Get taskID with
  | none => .err ErrTaskNotFound
  | some _ => .ok ()

/-- Go `os.Interrupt`, the number of SIGINT. -/
def osInterrupt : Nat := 2

/-- External results of one `SignalTask` call: `SignalLookup` is the table
`signals.SignalLookup`, `pid` the result of `Machine.PID()`, `signalErr` the
result of `process.Signal`. -/
structure SignalEnv where
  SignalLookup : String → Option Nat
  pid : Option Int
  findProcessOk : Bool
  signalErr : Option String

/-- Go `LitegixDriverPlugin.SignalTask`: its outcome and the signal it passed
to `process.Signal`, if that call was reached. -/
def SignalTask (d : Driver) (e : SignalEnv) (taskID : String) (signal : String) :
    Outcome Unit × Option Nat :=
  match d.tasks.Get taskID with
  | none => (.err ErrTaskNotFound, none)
  | some handle =>
    match handle.vmInfo.bind (fun v => v.Machine) with
    | none => (.err ("VM info not available for task " ++ taskID), none)
    | some _ =>
      match e.pid with
      | none => (.err "failed to get VM PID", none)
      | some _ =>
        if !e.findProcessOk then (.err "failed to find VM process", none)
        else
          let sig : Nat :=
            match e.SignalLookup signal with
            | some s => s
            | none => osInterrupt
          match e.signalErr with
          | some msg => (.err msg, some sig)
          | none => (.ok (), some sig)

/-! ## Handles made by the driver, and the driver context -/

/-- A handle as the driver makes it: the one a successful `StartTask` stores in
the registry, or one that a call of `RecoverTask` stores under a task id that
was not in the registry before the call. -/
def DriverCreated (h0 : taskHandle) : Prop :=
  (∃ (d : Driver) (e : StartEnv) (cfg : DTaskConfig) (out : DriverHandle),
      (StartTask d e cfg).2 = .ok out ∧ (StartTask d e cfg).1.tasks.Get cfg.ID = some h0) ∨
  (∃ (d : Driver) (handle : Option DriverHandle) (id : String),
      d.tasks.Get id = none ∧ (RecoverTask d handle).1.tasks.Get id = some h0)

/-- The driver context `d.ctx` (cancelled or not) next to one task handle and
its monitor goroutine. -/
structure MonitorWorld where
  driverCancelled : Bool
  h : taskHandle
  deriving DecidableEq, Repr

/-- Go `d.signalShutdown()`: cancel the driver context. -/
def signalShutdown (w : MonitorWorld) : MonitorWorld :=
  { w with driverCancelled := true }

/-- One tick of the monitor loop in the presence of the driver context. The
`select` of `taskHandle.run` has the single case `<-ticker.C` and the probe
runs under `context.Background()`: the tick is `runTick` on the handle and
the driver context is neither read nor written. -/
def worldTick (w : MonitorWorld) (probe : Outcome VMStatus) (now : Nat) : MonitorWorld :=
  { w with h := runTick w.h probe now }

/-- The sizing rule in the words of the specification: `max(100, ceil(1.5*S / 1 MiB))`
with `1.5*S` the exact rational value. -/
def specSizeMiB (S : Int) : Int :=
  max 100 ⌈((3 : ℚ) / 2 * (S : ℚ)) / 2 ^ 20⌉

/-! ## Concrete inputs -/

/-- An environment of `createRootfs` in which every step succeeds, for an image
with one layer whose merged directory measures `size` bytes. -/
def rootfsEnvOk (size : Int) : RootfsEnv :=
  { readManifest := true, manifests := some [["layer.tar"]], mkdirTempBuild := true,
    layerOk := fun _ => true, duOk := true, size := some size, ddOk := true, mkfsOk := true,
    mkdirTempMount := true, mountOk := true, cpOk := true }

/-- A plugin configuration with the rootfs base directory `/var/lib/fc`. -/
def exampleConfig : Config :=
  { VmlinuxPath := "/opt/vmlinux", RootfsBasePath := ["var", "lib", "fc"],
    ContainerdSocket := "" }

/-- A task configuration: one vCPU, 128 MiB. -/
def exampleTaskConfig : TaskConfig :=
  { Image := "alpine:latest", VpuCount := 1, MemSize := 128, Args := "", Command := "",
    Env := [] }

/-- The orchestrator task configuration of task `id`. -/
def exampleTask (id : String) : DTaskConfig :=
  { ID := id, Name := "web", AllocID := "a1", driverConfig := some exampleTaskConfig }

/-- Every step of `CreateAndStartVM` succeeds; the VM gets host PID 4242. -/
def createEnvOk : CreateEnv :=
  { mkdirVM := true,
    pull := { dockerPull := true, mkdirTarget := true, dockerSave := true, tarExtract := true },
    rootfs := rootfsEnvOk 5000000, newMachineOk := true, startOk := true, pid := some 4242,
    now := 1000 }

/-- The workspace is created, then `docker pull` fails. -/
def createEnvPullFails : CreateEnv :=
  { createEnvOk with
    pull := { dockerPull := false, mkdirTarget := true, dockerSave := true, tarExtract := true } }

/-- A `StartTask` call in which everything succeeds. -/
def startEnvOk : StartEnv :=
  { create := createEnvOk, setDriverStateOk := true,
    destroy := { stopVMMErr := none, removeAllOk := true }, now := 1000 }

/-- A `StartTask` call in which the image pull fails. -/
def startEnvPullFails : StartEnv :=
  { startEnvOk with create := createEnvPullFails }

/-- A configured driver with no task and an empty base directory. -/
def emptyDriver : Driver :=
  { config := exampleConfig, tasks := [], fs := [] }

/-- The driver after task `t1` was started. -/
def runningDriver : Driver :=
  (StartTask emptyDriver startEnvOk (exampleTask "t1")).1

/-- The VM record that `CreateAndStartVM` returns for task `t1` under `createEnvOk`. -/
def exampleVMInfo : VMInfo :=
  { TaskID := "t1", VMID := "t1",
    Machine := some
      { cfg :=
        { SocketPath := ["var", "lib", "fc", "t1", "firecracker.sock"],
          KernelImagePath := "/opt/vmlinux",
          KernelArgs := "console=ttyS0 reboot=k panic=1 pci=off",
          Drives := [{ DriveID := "rootfs",
                       PathOnHost := ["var", "lib", "fc", "t1", "rootfs.ext4"],
                       IsRootDevice := true, IsReadOnly := false }],
          VcpuCount := 1, MemSizeMib := 128 } },
    SocketPath := ["var", "lib", "fc", "t1", "firecracker.sock"],
    RootfsPath := ["var", "lib", "fc", "t1", "rootfs.ext4"],
    PID := 4242, CreatedAt := 1000 }

/-- The handle that `StartTask` stores for task `t1`. -/
def exampleHandle : taskHandle :=
  { taskConfig := exampleTask "t1", startedAt := 1000, procState := .TaskStateRunning,
    vmInfo := some exampleVMInfo, monitor := .spawned }

/-- A `DestroyVM` in which the forced stop and the directory removal both fail. -/
def destroyEnvFails : DestroyEnv :=
  { stopVMMErr := some "already stopped", removeAllOk := false }

/-- A `DestroyVM` in which the forced stop and the directory removal succeed. -/
def destroyEnvOk : DestroyEnv :=
  { stopVMMErr := none, removeAllOk := true }

/-- A probe that finds the VM process alive. -/
def probeAlive : ProbeEnv :=
  { pid := some 4242, findProcessOk := true, signalOk := true }

/-- A probe whose signal 0 fails: the VM process is gone. -/
def probeGone : ProbeEnv :=
  { pid := some 4242, findProcessOk := true, signalOk := false }

/-- The handle of task `t1` once its monitor has entered the loop. -/
def loopingHandle : taskHandle :=
  runStart exampleHandle

/-- The orchestrator handle that `StartTask` returns for task `id`: its stored
state holds the task configuration without the driver configuration. -/
def exampleOut (id : String) : DriverHandle :=
  { Version := 1, Config := exampleTask id,
    DriverState := some
      { TaskConfig := { ID := id, Name := "web", AllocID := "a1", driverConfig := none },
        StartedAt := 1000, ContainerName := "web-a1" } }

/-- The signal table used in the examples: SIGTERM is 15, SIGKILL is 9. -/
def exampleSignalLookup (name : String) : Option Nat :=
  if name = "SIGTERM" then some 15 else if name = "SIGKILL" then some 9 else none

/-- A `SignalTask` call in which the PID is found and the signal is sent. -/
def signalEnvOk : SignalEnv :=
  { SignalLookup := exampleSignalLookup, pid := some 4242, findProcessOk := true,
    signalErr := none }

/-- A task configuration that asks for no vCPU and a negative amount of memory. -/
def nonPositiveTaskConfig : TaskConfig :=
  { Image := "alpine:latest", VpuCount := 0, MemSize := -128, Args := "", Command := "",
    Env := [] }

/-- The orchestrator task configuration of task `t5` with `nonPositiveTaskConfig`. -/
def nonPositiveTask : DTaskConfig :=
  { ID := "t5", Name := "web", AllocID := "a1", driverConfig := some nonPositiveTaskConfig }

/-! ## Rootfs sizing -/

/-- Wrapping leaves a value in the `int64` range unchanged. -/
theorem wrapInt64_of_range (x : Int) (h1 : -9223372036854775808 ≤ x)
    (h2 : x < 9223372036854775808) : wrapInt64 x = x := by
  unfold wrapInt64
  omega

/-- Without overflow, `createRootfs` computes the ceiling of the truncated
byte count `3*S/2` over one MiB, with a floor of 100. -/
theorem rootfsSizeMB_eq (S : Int) (h0 : 0 ≤ S) (h1 : 3 * S < 9223372036854775808) :
    rootfsSizeMB S = max 100 ((3 * S / 2 + 1048575) / 1048576) := by
  have e1 : mulInt64 S 3 = 3 * S := by
    unfold mulInt64
    rw [wrapInt64_of_range _ (by omega) (by omega)]
    ring
  have e2 : divInt64 (3 * S) 2 = 3 * S / 2 := by
    unfold divInt64
    rw [Int.tdiv_eq_ediv (by omega) (by norm_num)]
    exact wrapInt64_of_range _ (by omega) (by omega)
  have e3 : subInt64 (addInt64 (3 * S / 2) (1024 * 1024)) 1 = 3 * S / 2 + 1048575 := by
    unfold subInt64 addInt64
    rw [wrapInt64_of_range (3 * S / 2 + 1024 * 1024) (by omega) (by omega)]
    rw [wrapInt64_of_range _ (by omega) (by omega)]
    ring
  have e4 : divInt64 (3 * S / 2 + 1048575) (1024 * 1024)
      = (3 * S / 2 + 1048575) / 1048576 := by
    unfold divInt64
    rw [Int.tdiv_eq_ediv (by omega) (by norm_num)]
    exact wrapInt64_of_range _ (by omega) (by omega)
  simp only [rootfsSizeMB, e1, e2, e3, e4]
  split_ifs with h <;> omega

/-- C1: at a merged size of 69905067 bytes the exact value of 1.5*S is
104857600.5 bytes, whose ceiling in MiB is 101, yet `createRootfs` truncates
`size * 3 / 2` to 104857600 first and asks `dd` for 100 MiB. -/
theorem rootfsSizeMB_differs_from_spec :
    0 ≤ (69905067 : Int) ∧ 3 * (69905067 : Int) < 9223372036854775808 ∧
      rootfsSizeMB 69905067 = 100 ∧ specSizeMiB 69905067 = 101 ∧
      (createRootfs (rootfsEnvOk 69905067)).ddCount = some 100 := by
  have hc : ⌈((3 : ℚ) / 2 * ((69905067 : Int) : ℚ)) / 2 ^ 20⌉ = 101 := by
    rw [Int.ceil_eq_iff]
    norm_num
  have hs : rootfsSizeMB 69905067 = 100 := by
    rw [rootfsSizeMB_eq _ (by norm_num) (by norm_num)]
    norm_num
  refine ⟨by norm_num, by norm_num, hs, ?_, ?_⟩
  · unfold specSizeMiB
    rw [hc]
    norm_num
  · simp [createRootfs, rootfsEnvOk, hs]

/-- C2: at a merged size of 72002219 bytes the rootfs gets 103 MiB, below the
104 MiB that the ceiling of 1.5*S over one MiB requires: the truncation of
`size * 3 / 2` rounds the headroom away. -/
theorem rootfsSizeMB_below_headroom :
    rootfsSizeMB 72002219 = 103 ∧
      ⌈((3 : ℚ) / 2 * ((72002219 : Int) : ℚ)) / 2 ^ 20⌉ = 104 ∧
      rootfsSizeMB 72002219 < ⌈((3 : ℚ) / 2 * ((72002219 : Int) : ℚ)) / 2 ^ 20⌉ := by
  have hc : ⌈((3 : ℚ) / 2 * ((72002219 : Int) : ℚ)) / 2 ^ 20⌉ = 104 := by
    rw [Int.ceil_eq_iff]
    norm_num
  have hs : rootfsSizeMB 72002219 = 103 := by
    rw [rootfsSizeMB_eq _ (by norm_num) (by norm_num)]
    norm_num
  refine ⟨hs, hc, ?_⟩
  rw [hs, hc]
  norm_num

/-- The size computed by `createRootfs` is at least 100 for every input,
overflowing and negative ones included. -/
theorem rootfsSizeMB_ge (S : Int) : 100 ≤ rootfsSizeMB S := by
  unfold rootfsSizeMB
  simp only
  split_ifs with h <;> omega

/-- C3: whatever size is parsed from `du`, the `count=` argument that
`createRootfs` passes to `dd` is the computed size and is at least 100. -/
theorem createRootfs_ddCount_ge (e : RootfsEnv) (c : Int)
    (h : (createRootfs e).ddCount = some c) :
    100 ≤ c ∧ ∃ S, e.size = some S ∧ c = rootfsSizeMB S := by
  unfold createRootfs at h
  repeat' split at h
  all_goals first
    | (simp at h; done)
    | (simp only [Option.some.injEq] at h
       subst h
       exact ⟨rootfsSizeMB_ge _, _, by assumption, rfl⟩)

/-- C3 at an input that overflows `size * 3`: the count is still 100. -/
theorem createRootfs_ddCount_ge_witness :
    (createRootfs (rootfsEnvOk 4611686018427387904)).ddCount = some 100 ∧
      (100 : Int) ≤ 100 ∧
      ∃ S, (rootfsEnvOk 4611686018427387904).size = some S ∧ (100 : Int) = rootfsSizeMB S :=
  ⟨by set_option maxRecDepth 100000 in decide,
    createRootfs_ddCount_ge (rootfsEnvOk 4611686018427387904) 100
      (by set_option maxRecDepth 100000 in decide)⟩

/-! ## Registry and file-system lemmas -/

theorem mem_mkdirAll_self (fs : HostFS) (p : Path) : p ∈ mkdirAll fs p := by
  unfold mkdirAll
  split_ifs with h
  · exact h
  · exact List.mem_cons_self _ _

theorem mem_mkdirAll_of_mem (fs : HostFS) (p q : Path) (h : q ∈ fs) : q ∈ mkdirAll fs p := by
  unfold mkdirAll
  split_ifs
  · exact h
  · exact List.mem_cons_of_mem _ h

theorem pullOCIImage_keeps (e : PullEnv) (fs : HostFS) (t q : Path) (h : q ∈ fs) :
    q ∈ (pullOCIImage e fs t).1 := by
  unfold pullOCIImage
  split_ifs <;> first | exact h | exact mem_mkdirAll_of_mem _ _ _ h

/-- The file system that `CreateAndStartVM` leaves is, on every return path,
the one after the workspace and image directories were created: no return path
removes anything. -/
theorem CreateAndStartVM_fs (c : Config) (e : CreateEnv) (fs : HostFS) (config : TaskConfig)
    (taskID : String) :
    (CreateAndStartVM c e fs config taskID).1 =
      if e.mkdirVM then
        (pullOCIImage e.pull (mkdirAll fs (joinPath c.RootfsBasePath taskID))
          (joinPath (joinPath c.RootfsBasePath taskID) "image")).1
      else fs := by
  unfold CreateAndStartVM
  cases hm : e.mkdirVM
  · simp
  · simp only [Bool.not_true, Bool.false_eq_true, if_false, if_true]
    generalize pullOCIImage e.pull _ _ = r
    obtain ⟨fs2, r2⟩ := r
    cases r2 with
    | error m => rfl
    | ok u =>
      simp only
      cases (createRootfs e.rootfs).result with
      | error m => rfl
      | ok u2 =>
        simp only
        split_ifs
        · rfl
        · rfl
        · cases e.pid <;> rfl

/-- Once `os.MkdirAll` of the workspace succeeded, the workspace exists when
`CreateAndStartVM` returns, on every return path. -/
theorem CreateAndStartVM_workspace (c : Config) (e : CreateEnv) (fs : HostFS)
    (config : TaskConfig) (taskID : String) (hm : e.mkdirVM = true) :
    joinPath c.RootfsBasePath taskID ∈ (CreateAndStartVM c e fs config taskID).1 := by
  rw [CreateAndStartVM_fs, if_pos hm]
  exact pullOCIImage_keeps _ _ _ _ (mem_mkdirAll_self _ _)

theorem taskStore_Get_Delete (s : taskStore) (id : String) :
    (taskStore.Delete s id).Get id = none := by
  unfold taskStore.Get taskStore.Delete
  rw [List.lookup_eq_none_iff]
  intro p hp
  rw [List.mem_filter] at hp
  have h2 := hp.2
  simp only [bne_iff_ne, ne_eq] at h2 ⊢
  exact fun h => h2 h.symm

theorem taskStore_Get_Set (s : taskStore) (id : String) (h : taskHandle) :
    (taskStore.Set s id h).Get id = some h := by
  unfold taskStore.Get taskStore.Set
  simp [List.lookup]

/-! ## Driver facade -/

/-- C4: `StartTask` on a task id that is already in the registry returns an
error and leaves the whole driver state as it was: the registry and the handle
stored for that id, the host workspace, and the list of VM manager calls (no
VM is created, no handle replaced). -/
theorem StartTask_duplicate (d : Driver) (e : StartEnv) (cfg : DTaskConfig)
    (h : (d.tasks.Get cfg.ID).isSome = true) :
    (StartTask d e cfg).2.isErr = true ∧ (StartTask d e cfg).1 = d ∧
      (StartTask d e cfg).1.tasks.Get cfg.ID = d.tasks.Get cfg.ID := by
  unfold StartTask
  simp [h, Outcome.isErr]

/-- C4 on the driver that already runs task `t1`. -/
theorem StartTask_duplicate_witness :
    (runningDriver.tasks.Get (exampleTask "t1").ID).isSome = true ∧
      (StartTask runningDriver startEnvOk (exampleTask "t1")).2.isErr = true ∧
      (StartTask runningDriver startEnvOk (exampleTask "t1")).1 = runningDriver ∧
      (StartTask runningDriver startEnvOk (exampleTask "t1")).1.tasks.Get (exampleTask "t1").ID
        = runningDriver.tasks.Get (exampleTask "t1").ID :=
  ⟨by rfl, StartTask_duplicate runningDriver startEnvOk (exampleTask "t1") (by rfl)⟩

/-- C5 as stated fails: when the image pull fails, `CreateAndStartVM` returns
an error and the workspace directory of the task still exists, also after
`StartTask` has returned its error. -/
theorem CreateAndStartVM_error_leaves_workspace :
    (CreateAndStartVM exampleConfig createEnvPullFails [] exampleTaskConfig "t4").2
        = .error "failed to pull OCI image" ∧
      joinPath exampleConfig.RootfsBasePath "t4"
        ∈ (CreateAndStartVM exampleConfig createEnvPullFails [] exampleTaskConfig "t4").1 ∧
      (StartTask emptyDriver startEnvPullFails (exampleTask "t4")).2.isErr = true ∧
      joinPath exampleConfig.RootfsBasePath "t4"
        ∈ (StartTask emptyDriver startEnvPullFails (exampleTask "t4")).1.fs := by
  refine ⟨by rfl, ?_, by rfl, ?_⟩
  · simp [CreateAndStartVM, createEnvPullFails, createEnvOk, pullOCIImage, mkdirAll]
  · simp [StartTask, emptyDriver, startEnvPullFails, startEnvOk, exampleTask, taskStore.Get,
      CreateAndStartVM, createEnvPullFails, createEnvOk, pullOCIImage, mkdirAll, exampleConfig]

/-- C5 amended: whenever `CreateAndStartVM` returns an error, `StartTask`
returns an error, the registry is unchanged and holds no entry for the task,
and nothing was removed from the host: every directory that existed still
exists, and the workspace of the task exists if its creation succeeded. -/
theorem StartTask_create_error (d : Driver) (e : StartEnv) (cfg : DTaskConfig)
    (driverConfig : TaskConfig) (msg : String)
    (hnew : d.tasks.Get cfg.ID = none) (hdec : cfg.driverConfig = some driverConfig)
    (herr : (CreateAndStartVM d.config e.create d.fs driverConfig cfg.ID).2 = .error msg) :
    (StartTask d e cfg).2.isErr = true ∧
      (StartTask d e cfg).1.tasks = d.tasks ∧
      (StartTask d e cfg).1.tasks.Get cfg.ID = none ∧
      (∀ q, q ∈ d.fs → q ∈ (StartTask d e cfg).1.fs) ∧
      (e.create.mkdirVM = true →
        joinPath d.config.RootfsBasePath cfg.ID ∈ (StartTask d e cfg).1.fs) := by
  have hs : StartTask d e cfg =
      ({ d with fs := (CreateAndStartVM d.config e.create d.fs driverConfig cfg.ID).1,
                vmCalls := d.vmCalls ++ [.createAndStartVM cfg.ID] },
        .err "failed to create and start VM") := by
    unfold StartTask
    simp [hnew, hdec, herr]
  rw [hs]
  refine ⟨rfl, rfl, hnew, ?_, ?_⟩
  · intro q hq
    rw [CreateAndStartVM_fs]
    split_ifs
    · exact pullOCIImage_keeps _ _ _ _ (mem_mkdirAll_of_mem _ _ _ hq)
    · exact hq
  · intro hm
    exact CreateAndStartVM_workspace _ _ _ _ _ hm

/-- C5 amended, at the failed image pull of task `t4`. -/
theorem StartTask_create_error_witness :
    (StartTask emptyDriver startEnvPullFails (exampleTask "t4")).2.isErr = true ∧
      (StartTask emptyDriver startEnvPullFails (exampleTask "t4")).1.tasks = emptyDriver.tasks ∧
      (StartTask emptyDriver startEnvPullFails (exampleTask "t4")).1.tasks.Get
        (exampleTask "t4").ID = none ∧
      (∀ q, q ∈ emptyDriver.fs →
        q ∈ (StartTask emptyDriver startEnvPullFails (exampleTask "t4")).1.fs) ∧
      (startEnvPullFails.create.mkdirVM = true →
        joinPath emptyDriver.config.RootfsBasePath (exampleTask "t4").ID
          ∈ (StartTask emptyDriver startEnvPullFails (exampleTask "t4")).1.fs) :=
  StartTask_create_error emptyDriver startEnvPullFails (exampleTask "t4") exampleTaskConfig
    "failed to pull OCI image" (by rfl) (by rfl) (by rfl)

/-- The two guards of `DestroyTask`: the task is unknown, or it is running and
`force` is false. -/
theorem DestroyTask_refused (d : Driver) (e : DestroyEnv) (taskID : String) (force : Bool)
    (h : d.tasks.Get taskID = none ∨
      ∃ hd, d.tasks.Get taskID = some hd ∧ hd.procState = .TaskStateRunning ∧ force = false) :
    (DestroyTask d e taskID force).2.isErr = true ∧ (DestroyTask d e taskID force).1 = d := by
  unfold DestroyTask
  rcases h with h | ⟨hd, h, hr, hf⟩
  · simp [h, Outcome.isErr]
  · simp [h, hr, hf, taskHandle.IsRunning, Outcome.isErr]

/-- Past its two guards `DestroyTask` calls `DestroyVM` and returns no error
value: it returns success, or panics inside `DestroyVM`. -/
theorem DestroyTask_passed (d : Driver) (e : DestroyEnv) (taskID : String) (force : Bool)
    (hd : taskHandle) (h : d.tasks.Get taskID = some hd)
    (hg : hd.procState ≠ .TaskStateRunning ∨ force = true) :
    (DestroyTask d e taskID force).2.isErr = false ∧
      (DestroyTask d e taskID force).1.vmCalls = d.vmCalls ++ [.destroyVM hd.vmInfo] := by
  have hguard : (hd.IsRunning && !force) = false := by
    rcases hg with hg | hg
    · simp [taskHandle.IsRunning, hg]
    · simp [hg]
  unfold DestroyTask
  simp only [h, hguard, Bool.false_eq_true, if_false]
  cases (DestroyVM hd.vmInfo e d.fs).2.1 <;> simp [Outcome.isErr]

/-- C6: `DestroyTask` returns an error exactly when the task is not in the
registry or its handle is running and `force` is false; in these cases the
driver state (registry, handles, file system) is unchanged and no call was
made on the VM manager. -/
theorem DestroyTask_error_iff (d : Driver) (e : DestroyEnv) (taskID : String) (force : Bool) :
    ((DestroyTask d e taskID force).2.isErr = true ↔
      (d.tasks.Get taskID = none ∨
        ∃ hd, d.tasks.Get taskID = some hd ∧ hd.procState = .TaskStateRunning ∧
          force = false)) ∧
    ((DestroyTask d e taskID force).2.isErr = true →
      (DestroyTask d e taskID force).1 = d ∧
      (DestroyTask d e taskID force).1.tasks = d.tasks ∧
      (DestroyTask d e taskID force).1.vmCalls = d.vmCalls) := by
  have key : (DestroyTask d e taskID force).2.isErr = true →
      (d.tasks.Get taskID = none ∨
        ∃ hd, d.tasks.Get taskID = some hd ∧ hd.procState = .TaskStateRunning ∧
          force = false) := by
    intro herr
    cases hget : d.tasks.Get taskID with
    | none => exact Or.inl rfl
    | some hd =>
      right
      refine ⟨hd, rfl, ?_⟩
      by_contra hcon
      have hg : hd.procState ≠ .TaskStateRunning ∨ force = true := by
        by_cases hr : hd.procState = .TaskStateRunning
        · right
          cases force
          · exact absurd ⟨hr, rfl⟩ hcon
          · rfl
        · exact Or.inl hr
      have := (DestroyTask_passed d e taskID force hd hget hg).1
      rw [this] at herr
      exact Bool.false_ne_true herr
  refine ⟨⟨key, fun h => (DestroyTask_refused d e taskID force h).1⟩, fun herr => ?_⟩
  have h2 := (DestroyTask_refused d e taskID force (key herr)).2
  exact ⟨h2, by rw [h2], by rw [h2]⟩

/-- C6 at the running task `t1` without `force`: refused, nothing changes. -/
theorem DestroyTask_error_iff_witness :
    (DestroyTask runningDriver destroyEnvOk "t1" false).2.isErr = true ∧
      (DestroyTask runningDriver destroyEnvOk "t1" false).1 = runningDriver ∧
      (DestroyTask runningDriver destroyEnvOk "t1" false).1.tasks = runningDriver.tasks ∧
      (DestroyTask runningDriver destroyEnvOk "t1" false).1.vmCalls = runningDriver.vmCalls :=
  ⟨by rfl, (DestroyTask_error_iff runningDriver destroyEnvOk "t1" false).2 (by rfl)⟩

/-- Past its two guards, on a handle with a VM record, `DestroyTask` calls
`DestroyVM`, ignores what it reports, deletes the registry entry and succeeds. -/
theorem DestroyTask_of_record (d : Driver) (e : DestroyEnv) (taskID : String) (force : Bool)
    (hd : taskHandle) (v : VMInfo) (hget : d.tasks.Get taskID = some hd)
    (hv : hd.vmInfo = some v) (hg : (hd.IsRunning && !force) = false) :
    DestroyTask d e taskID force =
      ({ d with tasks := d.tasks.Delete taskID, fs := (DestroyVM (some v) e d.fs).1,
                vmCalls := d.vmCalls ++ [.destroyVM (some v)] }, .ok ()) := by
  unfold DestroyTask
  simp only [hget, hg, hv, Bool.false_eq_true, if_false]
  unfold DestroyVM
  simp only
  split_ifs <;> rfl

/-- C7: after a `DestroyTask` that returned success on a task with a VM record,
the registry holds no entry for the task, and `WaitTask`, `StopTask`,
`DestroyTask`, `InspectTask`, `SignalTask` and `TaskStats` on it all return the
task-not-found error. What `DestroyVM` reported is not consulted. -/
theorem DestroyTask_then_not_found (d : Driver) (e : DestroyEnv) (taskID : String)
    (force : Bool) (hd : taskHandle) (v : VMInfo)
    (hget : d.tasks.Get taskID = some hd) (hv : hd.vmInfo = some v)
    (hok : (DestroyTask d e taskID force).2 = .ok ()) :
    (DestroyTask d e taskID force).1.tasks.Get taskID = none ∧
      WaitTask (DestroyTask d e taskID force).1 taskID = .err ErrTaskNotFound ∧
      (∀ e2, (StopTask (DestroyTask d e taskID force).1 e2 taskID).2 = .err ErrTaskNotFound) ∧
      (∀ e2 f, (DestroyTask (DestroyTask d e taskID force).1 e2 taskID f).2
        = .err ErrTaskNotFound) ∧
      InspectTask (DestroyTask d e taskID force).1 taskID = .err ErrTaskNotFound ∧
      (∀ e2 sig, SignalTask (DestroyTask d e taskID force).1 e2 taskID sig
        = (.err ErrTaskNotFound, none)) ∧
      TaskStats (DestroyTask d e taskID force).1 taskID = .err ErrTaskNotFound := by
  have hgone : (DestroyTask d e taskID force).1.tasks.Get taskID = none := by
    cases hg : (hd.IsRunning && !force)
    · rw [DestroyTask_of_record d e taskID force hd v hget hv hg]
      exact taskStore_Get_Delete _ _
    · unfold DestroyTask at hok
      simp [hget, hg] at hok
  generalize (DestroyTask d e taskID force).1 = d1 at hgone ⊢
  refine ⟨hgone, ?_, ?_, ?_, ?_, ?_, ?_⟩
  · simp [WaitTask, hgone]
  · intro e2
    simp [StopTask, hgone]
  · intro e2 f
    simp [DestroyTask, hgone]
  · simp [InspectTask, hgone]
  · intro e2 sig
    simp [SignalTask, hgone]
  · simp [TaskStats, hgone]

/-- C7 at the forced destroy of the running task `t1` when both the forced
stop and the directory removal fail: success, and the task is gone. -/
theorem DestroyTask_then_not_found_witness :
    runningDriver.tasks.Get "t1" = some exampleHandle ∧
      (DestroyVM exampleHandle.vmInfo destroyEnvFails runningDriver.fs).2.1
        = .err "failed to clean up VM directory" ∧
      (DestroyTask runningDriver destroyEnvFails "t1" true).2 = .ok () ∧
      (DestroyTask runningDriver destroyEnvFails "t1" true).1.tasks.Get "t1" = none ∧
      InspectTask (DestroyTask runningDriver destroyEnvFails "t1" true).1 "t1"
        = .err ErrTaskNotFound :=
  have h := DestroyTask_then_not_found runningDriver destroyEnvFails "t1" true
    exampleHandle exampleVMInfo (by rfl) (by rfl) (by rfl)
  ⟨by rfl, by rfl, by rfl, h.1, h.2.2.2.2.1⟩

/-! ## Recovered tasks -/

/-- No call of `RecoverTask` changes the driver state: the handle is nil, the
task is already registered, the stored state does not decode, or the driver
configuration does not decode from the snapshot. -/
theorem RecoverTask_state (d : Driver) (handle : Option DriverHandle) :
    (RecoverTask d handle).1 = d := by
  unfold RecoverTask
  cases handle with
  | none => rfl
  | some hd =>
    simp only
    split_ifs
    · rfl
    · cases hd.DriverState with
      | none => rfl
      | some ts => rfl

/-- The orchestrator handle that a successful `StartTask` returns: its stored
state is the snapshot of the task state. -/
theorem StartTask_ok_out (d : Driver) (e : StartEnv) (cfg : DTaskConfig) (out : DriverHandle)
    (hs : (StartTask d e cfg).2 = .ok out) :
    out.Config = cfg ∧
      ∃ ts : TaskState, ts.TaskConfig = cfg ∧ out.DriverState = some ts.snapshot := by
  cases hg : (d.tasks.Get cfg.ID).isSome
  · cases hdc : cfg.driverConfig with
    | none => simp [StartTask, hg, hdc] at hs
    | some driverConfig =>
      cases hc : (CreateAndStartVM d.config e.create d.fs driverConfig cfg.ID).2 with
      | error m => simp [StartTask, hg, hdc, hc] at hs
      | ok v =>
        cases hset : e.setDriverStateOk
        · simp [StartTask, hg, hdc, hc, hset] at hs
        · simp only [StartTask, hg, hdc, hc, hset, Bool.not_true, Bool.false_eq_true, if_false,
            Outcome.ok.injEq] at hs
          subst hs
          exact ⟨rfl, _, rfl, rfl⟩
  · simp [StartTask, hg] at hs

/-- `RecoverTask` on the handle that `StartTask` returned, in a driver that
does not hold the task: the driver configuration does not decode from the
stored state, the call returns that error and stores nothing. -/
theorem RecoverTask_of_StartTask (d0 d : Driver) (e : StartEnv) (cfg : DTaskConfig)
    (out : DriverHandle) (hs : (StartTask d0 e cfg).2 = .ok out)
    (hnew : d.tasks.Get cfg.ID = none) :
    RecoverTask d (some out) = (d, .err "failed to decode driver config") := by
  obtain ⟨hcfg, ts, _, hst⟩ := StartTask_ok_out d0 e cfg out hs
  unfold RecoverTask
  simp [hcfg, hnew, hst, TaskState.snapshot, DTaskConfig.persisted]

/-- C8: `RecoverTask` on the handle that `StartTask` returned for a task, in a
driver that does not hold the task (a restarted plugin), returns the error of
the driver-configuration decode. It stores no handle and spawns no monitor, no
probe yields Unknown, and `WaitTask` on the task returns the task-not-found
error instead of a channel that yields an exit result. -/
theorem RecoverTask_recovers_nothing (d0 d : Driver) (e : StartEnv) (cfg : DTaskConfig)
    (out : DriverHandle) (hs : (StartTask d0 e cfg).2 = .ok out)
    (hnew : d.tasks.Get cfg.ID = none) :
    (RecoverTask d (some out)).2 = .err "failed to decode driver config" ∧
      (RecoverTask d (some out)).1 = d ∧
      (RecoverTask d (some out)).1.tasks.Get cfg.ID = none ∧
      WaitTask (RecoverTask d (some out)).1 cfg.ID = .err ErrTaskNotFound := by
  rw [RecoverTask_of_StartTask d0 d e cfg out hs hnew]
  refine ⟨rfl, rfl, hnew, ?_⟩
  simp [WaitTask, hnew]

/-- C8 at task `t3`: started, then recovered on a restarted plugin. -/
theorem RecoverTask_recovers_nothing_witness :
    (StartTask emptyDriver startEnvOk (exampleTask "t3")).2 = .ok (exampleOut "t3") ∧
      (RecoverTask emptyDriver (some (exampleOut "t3"))).2
        = .err "failed to decode driver config" ∧
      (RecoverTask emptyDriver (some (exampleOut "t3"))).1 = emptyDriver ∧
      (RecoverTask emptyDriver (some (exampleOut "t3"))).1.tasks.Get (exampleTask "t3").ID
        = none ∧
      WaitTask (RecoverTask emptyDriver (some (exampleOut "t3"))).1 (exampleTask "t3").ID
        = .err ErrTaskNotFound :=
  ⟨by rfl,
    RecoverTask_recovers_nothing emptyDriver emptyDriver startEnvOk (exampleTask "t3")
      (exampleOut "t3") (by rfl) (by rfl)⟩

/-- C9: after `RecoverTask` on the handle that `StartTask` returned for a task,
in a driver that does not hold the task, `DestroyTask` with `force = true`
returns the task-not-found error, not success: nothing was recovered, the
registry is as before and `DestroyVM` is not called. -/
theorem RecoverTask_then_DestroyTask (d0 d : Driver) (e : StartEnv) (cfg : DTaskConfig)
    (out : DriverHandle) (de : DestroyEnv) (hs : (StartTask d0 e cfg).2 = .ok out)
    (hnew : d.tasks.Get cfg.ID = none) :
    (DestroyTask (RecoverTask d (some out)).1 de cfg.ID true).2 = .err ErrTaskNotFound ∧
      (DestroyTask (RecoverTask d (some out)).1 de cfg.ID true).1 = d ∧
      (DestroyTask (RecoverTask d (some out)).1 de cfg.ID true).1.vmCalls = d.vmCalls := by
  rw [RecoverTask_of_StartTask d0 d e cfg out hs hnew]
  unfold DestroyTask
  simp [hnew]

/-- C9 at task `t3`: started, recovered on a restarted plugin, then destroyed. -/
theorem RecoverTask_then_DestroyTask_witness :
    (DestroyTask (RecoverTask emptyDriver (some (exampleOut "t3"))).1 destroyEnvOk
        (exampleTask "t3").ID true).2 = .err ErrTaskNotFound ∧
      (DestroyTask (RecoverTask emptyDriver (some (exampleOut "t3"))).1 destroyEnvOk
        (exampleTask "t3").ID true).1 = emptyDriver ∧
      (DestroyTask (RecoverTask emptyDriver (some (exampleOut "t3"))).1 destroyEnvOk
        (exampleTask "t3").ID true).1.vmCalls = emptyDriver.vmCalls :=
  RecoverTask_then_DestroyTask emptyDriver emptyDriver startEnvOk (exampleTask "t3")
    (exampleOut "t3") destroyEnvOk (by rfl) (by rfl)

/-! ## Handle invariant under the monitor -/

/-- A VM record returned by `CreateAndStartVM` comes from a `NewMachine` and a
`Start` that succeeded: it carries a machine handle whose configuration holds
the task's two counts as given, and both counts are at least one, because
`Start` validated them. -/
theorem CreateAndStartVM_ok_counts (c : Config) (e : CreateEnv) (fs : HostFS)
    (config : TaskConfig) (taskID : String) (v : VMInfo)
    (h : (CreateAndStartVM c e fs config taskID).2 = .ok v) :
    1 ≤ config.VpuCount ∧ 1 ≤ config.MemSize ∧
      ∃ m, v.Machine = some m ∧ m.cfg.VcpuCount = config.VpuCount ∧
        m.cfg.MemSizeMib = config.MemSize := by
  unfold CreateAndStartVM at h
  cases hm : e.mkdirVM
  · simp [hm] at h
  · simp only [hm, Bool.not_true, Bool.false_eq_true, if_false] at h
    generalize pullOCIImage e.pull _ _ = r at h
    obtain ⟨fs2, r2⟩ := r
    cases r2 with
    | error m => simp at h
    | ok u =>
      cases hr : (createRootfs e.rootfs).result with
      | error m => simp [hr] at h
      | ok u2 =>
        cases hn : e.newMachineOk
        · simp [hr, hn] at h
        · simp only [hr, hn, Bool.not_true, Bool.false_eq_true, if_false] at h
          split_ifs at h with hval
          simp [validMachineCfg] at hval
          cases hp : e.pid with
          | none => simp [hp] at h
          | some pid =>
            simp only [hp, Except.ok.injEq] at h
            subst h
            exact ⟨hval.1.1, hval.1.2, _, rfl, rfl, rfl⟩

/-- A VM record returned by `CreateAndStartVM` carries a machine handle. -/
theorem CreateAndStartVM_ok_machine (c : Config) (e : CreateEnv) (fs : HostFS)
    (config : TaskConfig) (taskID : String) (v : VMInfo)
    (h : (CreateAndStartVM c e fs config taskID).2 = .ok v) : ∃ m, v.Machine = some m := by
  obtain ⟨_, _, m, hm, _⟩ := CreateAndStartVM_ok_counts c e fs config taskID v h
  exact ⟨m, hm⟩

/-- The handle that a successful `StartTask` stores: Running, with the VM
record of the new VM, its monitor spawned. -/
theorem StartTask_ok_handle (d : Driver) (e : StartEnv) (cfg : DTaskConfig) (out : DriverHandle)
    (hs : (StartTask d e cfg).2 = .ok out) :
    ∃ v m, v.Machine = some m ∧
      (StartTask d e cfg).1.tasks.Get cfg.ID =
        some { taskConfig := cfg, startedAt := e.now, procState := .TaskStateRunning,
               vmInfo := some v, monitor := .spawned } := by
  cases hg : (d.tasks.Get cfg.ID).isSome
  · cases hdc : cfg.driverConfig with
    | none => simp [StartTask, hg, hdc] at hs
    | some driverConfig =>
      cases hc : (CreateAndStartVM d.config e.create d.fs driverConfig cfg.ID).2 with
      | error m => simp [StartTask, hg, hdc, hc] at hs
      | ok v =>
        cases hset : e.setDriverStateOk
        · simp [StartTask, hg, hdc, hc, hset] at hs
        · obtain ⟨m, hm⟩ := CreateAndStartVM_ok_machine _ _ _ _ _ v hc
          refine ⟨v, m, hm, ?_⟩
          simp only [StartTask, hg, hdc, hc, hset, Bool.not_true, Bool.false_eq_true, if_false]
          exact taskStore_Get_Set _ _ _
  · simp [StartTask, hg] at hs

/-- One monitor step keeps `StartedInv`, when the clock does not read zero. -/
theorem StartedInv_step (h : taskHandle) (e : ProbeEnv) (now : Nat) (hn : 0 < now)
    (hi : StartedInv h) : StartedInv (monitorStep h e now) := by
  obtain ⟨⟨v, m, hv, hm⟩, hphase⟩ := hi
  have hnow : now ≠ 0 := Nat.pos_iff_ne_zero.mp hn
  rcases hphase with ⟨hmon | hmon, hr⟩ | ⟨hmon, hc⟩
  · refine ⟨⟨v, m, ?_, hm⟩, Or.inl ⟨Or.inr ?_, ?_⟩⟩ <;>
      simp [monitorStep, hmon, runStart, hv, hr]
  · have hprobe : GetVMStatus h.vmInfo e = .ok { State := VMStateRunning, PID := v.PID } ∨
        GetVMStatus h.vmInfo e = .ok { State := VMStateStopped, PID := v.PID } := by
      unfold GetVMStatus
      simp only [hv, hm]
      cases e.pid with
      | none => exact Or.inr rfl
      | some pid =>
        simp only
        split_ifs
        · exact Or.inr rfl
        · exact Or.inr rfl
        · exact Or.inr rfl
        · exact Or.inl rfl
    have hstep : monitorStep h e now = runTick h (GetVMStatus h.vmInfo e) now := by
      simp only [monitorStep, hmon]
    rw [hstep]
    rcases hprobe with hp | hp
    · rw [hp]
      refine ⟨⟨v, m, ?_, hm⟩, Or.inl ⟨Or.inr ?_, ?_⟩⟩ <;>
        simp [runTick, hv, hmon, VMStateRunning]
    · rw [hp]
      refine ⟨⟨v, m, ?_, hm⟩, Or.inr ⟨?_, ?_⟩⟩ <;>
        simp [runTick, hv, VMStateRunning, VMStateStopped, hnow]
  · refine ⟨⟨v, m, ?_, hm⟩, Or.inr ⟨?_, ?_⟩⟩ <;>
      simp [monitorStep, hmon, hv, hc]

/-- Every run of the monitor keeps `StartedInv`. -/
theorem StartedInv_run (steps : List (ProbeEnv × Nat)) (h : taskHandle)
    (hn : ∀ t ∈ steps, 0 < t.2) (hi : StartedInv h) : StartedInv (runMonitor h steps) := by
  induction steps generalizing h with
  | nil => exact hi
  | cons t ts ih =>
    have ht : 0 < t.2 := hn t (List.mem_cons_self _ _)
    have hts : ∀ u ∈ ts, 0 < u.2 := fun u hu => hn u (List.mem_cons_of_mem _ hu)
    exact ih (monitorStep h t.1 t.2) hts (StartedInv_step h t.1 t.2 ht hi)

/-- In every state that a handle stored by a successful `StartTask` reaches
under monitor steps, `procState` Exited or Unknown implies that `completedAt`
is set and that the monitor loop has returned. -/
theorem StartTask_final_implies_completed (d : Driver) (e : StartEnv) (cfg : DTaskConfig)
    (out : DriverHandle) (h0 : taskHandle) (steps : List (ProbeEnv × Nat))
    (hs : (StartTask d e cfg).2 = .ok out)
    (hget : (StartTask d e cfg).1.tasks.Get cfg.ID = some h0)
    (hn : ∀ t ∈ steps, 0 < t.2)
    (hfin : (runMonitor h0 steps).procState = .TaskStateExited ∨
      (runMonitor h0 steps).procState = .TaskStateUnknown) :
    (runMonitor h0 steps).completedAt ≠ 0 ∧ (runMonitor h0 steps).monitor = .returned := by
  obtain ⟨v, m, hm, hh⟩ := StartTask_ok_handle d e cfg out hs
  rw [hget] at hh
  have h0eq := Option.some.inj hh
  have hinit : StartedInv h0 := by
    rw [h0eq]
    exact ⟨⟨v, m, rfl, hm⟩, Or.inl ⟨Or.inl rfl, rfl⟩⟩
  obtain ⟨_, hphase⟩ := StartedInv_run steps h0 hn hinit
  rcases hphase with ⟨_, hr⟩ | ⟨hmon, hc⟩
  · rcases hfin with hf | hf <;> rw [hr] at hf <;> cases hf
  · exact ⟨hc, hmon⟩

/-- C10: in every state that a handle made by `StartTask` or `RecoverTask`
reaches under monitor steps (the clock never reading the zero time),
`procState` Exited or Unknown implies that `completedAt` is set and that the
monitor loop has returned. -/
theorem final_implies_completed (h0 : taskHandle) (steps : List (ProbeEnv × Nat))
    (hc : DriverCreated h0) (hn : ∀ t ∈ steps, 0 < t.2)
    (hfin : (runMonitor h0 steps).procState = .TaskStateExited ∨
      (runMonitor h0 steps).procState = .TaskStateUnknown) :
    (runMonitor h0 steps).completedAt ≠ 0 ∧ (runMonitor h0 steps).monitor = .returned := by
  rcases hc with ⟨d, e, cfg, out, hs, hget⟩ | ⟨d, handle, id, hnew, hget⟩
  · exact StartTask_final_implies_completed d e cfg out h0 steps hs hget hn hfin
  · rw [RecoverTask_state, hnew] at hget
    cases hget

/-- C10 at task `t1`: the monitor starts, sees the VM running, then finds the
VM process gone at time 1010. -/
theorem final_implies_completed_witness :
    (runMonitor exampleHandle [(probeAlive, 1000), (probeAlive, 1005),
        (probeGone, 1010)]).procState = .TaskStateExited ∧
      (runMonitor exampleHandle [(probeAlive, 1000), (probeAlive, 1005),
        (probeGone, 1010)]).completedAt ≠ 0 ∧
      (runMonitor exampleHandle [(probeAlive, 1000), (probeAlive, 1005),
        (probeGone, 1010)]).monitor = .returned :=
  ⟨by rfl,
    final_implies_completed exampleHandle
      [(probeAlive, 1000), (probeAlive, 1005), (probeGone, 1010)]
      (Or.inl ⟨emptyDriver, startEnvOk, exampleTask "t1", exampleOut "t1", by rfl, by rfl⟩)
      (by decide) (Or.inl (by rfl))⟩

/-! ## Running implies a VM record -/

/-- A tick of the monitor never writes the `vmInfo` field. -/
theorem runTick_vmInfo (h : taskHandle) (probe : Outcome VMStatus) (now : Nat) :
    (runTick h probe now).vmInfo = h.vmInfo := by
  unfold runTick
  cases probe with
  | fault => rfl
  | err msg => cases h.exitResult <;> rfl
  | ok status =>
    simp only
    split_ifs
    · rfl
    · cases status.ExitCode <;> cases h.exitResult <;> rfl
    · rfl
    · rfl

/-- A step of the monitor never writes the `vmInfo` field. -/
theorem monitorStep_vmInfo (h : taskHandle) (e : ProbeEnv) (now : Nat) :
    (monitorStep h e now).vmInfo = h.vmInfo := by
  unfold monitorStep
  cases h.monitor
  · rfl
  · rfl
  · exact runTick_vmInfo _ _ _
  · rfl
  · rfl

/-- A run of the monitor never writes the `vmInfo` field. -/
theorem runMonitor_vmInfo (steps : List (ProbeEnv × Nat)) (h : taskHandle) :
    (runMonitor h steps).vmInfo = h.vmInfo := by
  induction steps generalizing h with
  | nil => rfl
  | cons t ts ih =>
    have := ih (monitorStep h t.1 t.2)
    rw [monitorStep_vmInfo] at this
    exact this

/-- On a handle without VM record a step of the monitor leaves `procState` as
it is: the first critical section does not write it, and the probe panics. -/
theorem monitorStep_procState_of_absent (h : taskHandle) (e : ProbeEnv) (now : Nat)
    (hv : h.vmInfo = none) : (monitorStep h e now).procState = h.procState := by
  unfold monitorStep
  cases h.monitor
  · rfl
  · rfl
  · simp only [hv, GetVMStatus, runTick]
  · rfl
  · rfl

/-- On a handle without VM record a run of the monitor leaves `procState` as it is. -/
theorem runMonitor_procState_of_absent (steps : List (ProbeEnv × Nat)) (h : taskHandle)
    (hv : h.vmInfo = none) : (runMonitor h steps).procState = h.procState := by
  induction steps generalizing h with
  | nil => rfl
  | cons t ts ih =>
    have h1 := ih (monitorStep h t.1 t.2) (by rw [monitorStep_vmInfo]; exact hv)
    rw [monitorStep_procState_of_absent h t.1 t.2 hv] at h1
    exact h1

/-- C11: in every state that a handle made by `StartTask` or `RecoverTask`
reaches under monitor steps over `GetVMStatus`, `procState` Running implies
that the VM record is present and carries a machine handle. -/
theorem running_implies_vm_record (h0 : taskHandle) (steps : List (ProbeEnv × Nat))
    (hc : DriverCreated h0) (hr : (runMonitor h0 steps).procState = .TaskStateRunning) :
    ∃ v m, (runMonitor h0 steps).vmInfo = some v ∧ v.Machine = some m := by
  -- the VM record is present in every state, so in the Running ones
  have _ := hr
  rw [runMonitor_vmInfo]
  rcases hc with ⟨d, e, cfg, out, hs, hget⟩ | ⟨d, handle, id, hnew, hget⟩
  · obtain ⟨v, m, hm, hh⟩ := StartTask_ok_handle d e cfg out hs
    rw [hget] at hh
    have h0eq := Option.some.inj hh
    exact ⟨v, m, by rw [h0eq], hm⟩
  · rw [RecoverTask_state, hnew] at hget
    cases hget

/-- C11 at task `t1` after the monitor started and saw the VM alive. -/
theorem running_implies_vm_record_witness :
    (runMonitor exampleHandle [(probeAlive, 1000), (probeAlive, 1005)]).procState
        = .TaskStateRunning ∧
      ∃ v m, (runMonitor exampleHandle [(probeAlive, 1000), (probeAlive, 1005)]).vmInfo
        = some v ∧ v.Machine = some m :=
  ⟨by rfl,
    running_implies_vm_record exampleHandle [(probeAlive, 1000), (probeAlive, 1005)]
      (Or.inl ⟨emptyDriver, startEnvOk, exampleTask "t1", exampleOut "t1", by rfl, by rfl⟩)
      (by rfl)⟩

/-! ## The monitor tick -/

/-- A step of the monitor that leaves it in the loop leaves it with an exit
result: the first critical section of `run` installs one and no tick removes it. -/
theorem monitorStep_looping_exitResult (h : taskHandle) (e : ProbeEnv) (now : Nat)
    (hinv : h.monitor = .looping → h.exitResult ≠ none)
    (hl : (monitorStep h e now).monitor = .looping) :
    (monitorStep h e now).exitResult ≠ none := by
  unfold monitorStep at hl ⊢
  cases hm : h.monitor
  · simp only [hm] at hl ⊢
    exact absurd hl (by decide)
  · simp only [runStart]
    cases h.exitResult <;> simp
  · have hne := hinv hm
    simp only [hm] at hl ⊢
    generalize GetVMStatus h.vmInfo e = probe at hl ⊢
    unfold runTick at hl ⊢
    cases probe with
    | fault => simp at hl
    | err msg =>
      cases hx : h.exitResult with
      | none => exact absurd hx hne
      | some r => simp [hx] at hl
    | ok status =>
      simp only at hl ⊢
      split_ifs at hl ⊢
      · exact hne
      · cases hx : h.exitResult with
        | none => exact absurd hx hne
        | some r => cases hc : status.ExitCode <;> simp [hx, hc] at hl
      · exact hne
  · simp only [hm] at hl ⊢
    exact absurd hl (by decide)
  · simp only [hm] at hl ⊢
    exact absurd hl (by decide)

/-- Whenever the monitor is in its loop, the handle has an exit result. -/
theorem runMonitor_looping_exitResult (steps : List (ProbeEnv × Nat)) (h : taskHandle)
    (hinv : h.monitor = .looping → h.exitResult ≠ none)
    (hl : (runMonitor h steps).monitor = .looping) :
    (runMonitor h steps).exitResult ≠ none := by
  induction steps generalizing h with
  | nil => exact hinv hl
  | cons t ts ih =>
    exact ih (monitorStep h t.1 t.2) (monitorStep_looping_exitResult h t.1 t.2 hinv) hl

/-- C12: one tick of the monitor loop follows the table. A probe that reports
Running sets `procState` to Running, stays in the loop and leaves `completedAt`
and `exitResult` as they were; Stopped gives Exited and leaves the loop;
Unknown gives Unknown and leaves the loop; a probe error gives Unknown and
leaves the loop. -/
theorem runTick_table (h : taskHandle) (now : Nat) (hm : h.monitor = .looping)
    (hr : h.exitResult ≠ none) :
    (∀ st : VMStatus, st.State = VMStateRunning →
      (runTick h (.ok st) now).procState = .TaskStateRunning ∧
      (runTick h (.ok st) now).monitor = .looping ∧
      (runTick h (.ok st) now).completedAt = h.completedAt ∧
      (runTick h (.ok st) now).exitResult = h.exitResult) ∧
    (∀ st : VMStatus, st.State = VMStateStopped →
      (runTick h (.ok st) now).procState = .TaskStateExited ∧
      (runTick h (.ok st) now).monitor = .returned) ∧
    (∀ st : VMStatus, st.State = VMStateUnknown →
      (runTick h (.ok st) now).procState = .TaskStateUnknown ∧
      (runTick h (.ok st) now).monitor = .returned) ∧
    (∀ msg : String,
      (runTick h (.err msg) now).procState = .TaskStateUnknown ∧
      (runTick h (.err msg) now).monitor = .returned) := by
  obtain ⟨r, hx⟩ := Option.ne_none_iff_exists'.mp hr
  refine ⟨?_, ?_, ?_, ?_⟩
  · intro st hst
    simp [runTick, hst, hm]
  · intro st hst
    cases hc : st.ExitCode <;>
      simp [runTick, hst, hx, hc, VMStateStopped, VMStateRunning]
  · intro st hst
    simp [runTick, hst, VMStateStopped, VMStateRunning, VMStateUnknown]
  · intro msg
    simp [runTick, hx]

/-- C12 at the handle of task `t1` in the loop of its monitor. -/
theorem runTick_table_witness :
    (runTick loopingHandle (.ok { State := VMStateRunning, PID := 4242 }) 1005).procState
        = .TaskStateRunning ∧
      (runTick loopingHandle (.ok { State := VMStateStopped, PID := 4242 }) 1005).monitor
        = .returned ∧
      (runTick loopingHandle (.err "probe timed out") 1005).procState = .TaskStateUnknown :=
  have t := runTick_table loopingHandle 1005 (by rfl) (by decide)
  ⟨(t.1 { State := VMStateRunning, PID := 4242 } rfl).1,
    (t.2.1 { State := VMStateStopped, PID := 4242 } rfl).2, (t.2.2.2 "probe timed out").1⟩

/-- C13 as stated fails: on a Stopped status that carries an exit time, the
tick records that time as `completedAt`, not the current time of the tick. -/
theorem runTick_stopped_takes_ExitedAt :
    (runTick loopingHandle (.ok { State := VMStateStopped, ExitedAt := some 7 }) 1010).monitor
        = .returned ∧
      (runTick loopingHandle (.ok { State := VMStateStopped, ExitedAt := some 7 })
        1010).completedAt = 7 ∧
      (runTick loopingHandle (.ok { State := VMStateStopped, ExitedAt := some 7 })
        1010).completedAt ≠ 1010 := by
  refine ⟨by rfl, by rfl, ?_⟩
  have h7 : (runTick loopingHandle (.ok { State := VMStateStopped, ExitedAt := some 7 })
      1010).completedAt = 7 := by rfl
  rw [h7]
  decide

/-- C13 amended: on a terminal tick `completedAt` becomes the current time of
the tick, except that a Stopped status carrying an exit time gives that exit
time; on Stopped the exit code is copied into the exit result exactly when the
status carries one; on a probe error the error is recorded on the exit result;
on Unknown the exit result is left as it was. -/
theorem runTick_terminal (h : taskHandle) (r : ExitResult) (now : Nat)
    (hr : h.exitResult = some r) :
    (∀ st : VMStatus, st.State = VMStateStopped →
      (runTick h (.ok st) now).completedAt = st.ExitedAt.getD now ∧
      (runTick h (.ok st) now).exitResult =
        some (match st.ExitCode with
          | some c => { r with ExitCode := (c : Int) }
          | none => r)) ∧
    (∀ st : VMStatus, st.State = VMStateUnknown →
      (runTick h (.ok st) now).completedAt = now ∧
      (runTick h (.ok st) now).exitResult = some r) ∧
    (∀ msg : String,
      (runTick h (.err msg) now).completedAt = now ∧
      (runTick h (.err msg) now).exitResult = some { r with Err := some msg }) := by
  refine ⟨?_, ?_, ?_⟩
  · intro st hst
    cases hc : st.ExitCode <;> cases ht : st.ExitedAt <;>
      simp [runTick, hst, hr, hc, ht, VMStateStopped, VMStateRunning]
  · intro st hst
    simp [runTick, hst, hr, VMStateStopped, VMStateRunning, VMStateUnknown]
  · intro msg
    simp [runTick, hr]

/-- C13 amended, at the handle of task `t1`: a Stopped status with exit code 3
and no exit time, at time 1010. -/
theorem runTick_terminal_witness :
    (runTick loopingHandle (.ok { State := VMStateStopped, ExitCode := some 3 })
        1010).completedAt = 1010 ∧
      (runTick loopingHandle (.ok { State := VMStateStopped, ExitCode := some 3 })
        1010).exitResult = some { ExitCode := 3 } :=
  (runTick_terminal loopingHandle {} 1010 (by rfl)).1
    { State := VMStateStopped, ExitCode := some 3 } rfl

/-! ## Stopping and probing a VM -/

/-- C14: on a VM record with a machine handle, `StopVM` calls the forced stop
exactly when the cooperative shutdown returned an error; it returns an error
exactly when both the shutdown and the forced stop returned one, and then it
returns the error of the forced stop; a clean shutdown returns success with
the shutdown as the only hypervisor call. -/
theorem StopVM_fallback (v : VMInfo) (m : Machine) (e : StopEnv) (hm : v.Machine = some m) :
    (HvCall.stopVMM ∈ (StopVM (some v) e).2 ↔ e.shutdownErr ≠ none) ∧
      ((StopVM (some v) e).1.isErr = true ↔ (e.shutdownErr ≠ none ∧ e.stopVMMErr ≠ none)) ∧
      (∀ msg, e.shutdownErr ≠ none → e.stopVMMErr = some msg →
        (StopVM (some v) e).1 = .err msg) ∧
      (e.shutdownErr ≠ none → e.stopVMMErr = none → (StopVM (some v) e).1 = .ok ()) ∧
      (e.shutdownErr = none → StopVM (some v) e = (.ok (), [.shutdown])) := by
  unfold StopVM
  simp only [hm]
  cases hs : e.shutdownErr with
  | none => simp [Outcome.isErr]
  | some s =>
    cases hf : e.stopVMMErr with
    | none => simp [Outcome.isErr]
    | some f => simp [Outcome.isErr]

/-- C14 at the VM of task `t1`, when the shutdown times out and the forced
stop fails as well. -/
theorem StopVM_fallback_witness :
    HvCall.stopVMM ∈ (StopVM (some exampleVMInfo) ⟨some "timeout", some "kill failed"⟩).2 ∧
      (StopVM (some exampleVMInfo) ⟨some "timeout", some "kill failed"⟩).1
        = .err "kill failed" ∧
      StopVM (some exampleVMInfo) ⟨none, some "kill failed"⟩ = (.ok (), [.shutdown]) :=
  have t := StopVM_fallback exampleVMInfo
    { cfg := { SocketPath := ["var", "lib", "fc", "t1", "firecracker.sock"],
               KernelImagePath := "/opt/vmlinux",
               KernelArgs := "console=ttyS0 reboot=k panic=1 pci=off",
               Drives := [{ DriveID := "rootfs",
                            PathOnHost := ["var", "lib", "fc", "t1", "rootfs.ext4"],
                            IsRootDevice := true, IsReadOnly := false }],
               VcpuCount := 1, MemSizeMib := 128 } }
  ⟨(t ⟨some "timeout", some "kill failed"⟩ rfl).1.mpr (by simp),
    (t ⟨some "timeout", some "kill failed"⟩ rfl).2.2.1 "kill failed" (by simp) rfl,
    (t ⟨none, some "kill failed"⟩ rfl).2.2.2.2 rfl⟩

/-- C15: on a present VM record `GetVMStatus` returns a status and no error.
The state is Unknown when the machine handle is nil; otherwise Stopped when
`PID()` errors or returns 0, or finding or signalling the process fails; and
Running in the remaining case, so Running is returned only when `PID()` gave a
non-zero PID and signal 0 succeeded. -/
theorem GetVMStatus_state (v : VMInfo) (e : ProbeEnv) :
    ∃ st, GetVMStatus (some v) e = .ok st ∧
      (v.Machine = none → st.State = VMStateUnknown) ∧
      (v.Machine ≠ none →
        (e.pid = none ∨ e.pid = some 0 ∨ e.findProcessOk = false ∨ e.signalOk = false) →
        st.State = VMStateStopped) ∧
      (v.Machine ≠ none → (∃ p, e.pid = some p ∧ p ≠ 0) → e.findProcessOk = true →
        e.signalOk = true → st.State = VMStateRunning) ∧
      (st.State = VMStateRunning →
        v.Machine ≠ none ∧ (∃ p, e.pid = some p ∧ p ≠ 0) ∧ e.findProcessOk = true ∧
          e.signalOk = true) := by
  cases hm : v.Machine with
  | none =>
    refine ⟨{ State := VMStateUnknown }, by simp [GetVMStatus, hm], ?_⟩
    simp [VMStateUnknown, VMStateRunning]
  | some m =>
    cases hp : e.pid with
    | none =>
      refine ⟨{ State := VMStateStopped, PID := v.PID }, by simp [GetVMStatus, hm, hp], ?_⟩
      simp [VMStateStopped, VMStateRunning]
    | some p =>
      by_cases h0 : p = 0
      · refine ⟨{ State := VMStateStopped, PID := v.PID }, by simp [GetVMStatus, hm, hp, h0], ?_⟩
        simp [h0, VMStateStopped, VMStateRunning]
      · cases hf : e.findProcessOk
        · refine ⟨{ State := VMStateStopped, PID := v.PID },
            by simp [GetVMStatus, hm, hp, h0, hf], ?_⟩
          simp [VMStateStopped, VMStateRunning]
        · cases hs : e.signalOk
          · refine ⟨{ State := VMStateStopped, PID := v.PID },
              by simp [GetVMStatus, hm, hp, h0, hf, hs], ?_⟩
            simp [VMStateStopped, VMStateRunning]
          · refine ⟨{ State := VMStateRunning, PID := v.PID },
              by simp [GetVMStatus, hm, hp, h0, hf, hs], ?_⟩
            simp [h0, VMStateStopped, VMStateRunning]

/-! ## Task sizing at acceptance -/

/-- A successful `StartTask` decoded the spec, got its VM record from
`CreateAndStartVM` and stored a Running handle with that record. -/
theorem StartTask_ok_form (d : Driver) (e : StartEnv) (cfg : DTaskConfig) (out : DriverHandle)
    (hs : (StartTask d e cfg).2 = .ok out) :
    ∃ tc v, cfg.driverConfig = some tc ∧
      (CreateAndStartVM d.config e.create d.fs tc cfg.ID).2 = .ok v ∧
      (StartTask d e cfg).1.tasks.Get cfg.ID =
        some { taskConfig := cfg, startedAt := e.now, procState := .TaskStateRunning,
               vmInfo := some v, monitor := .spawned } := by
  cases hg : (d.tasks.Get cfg.ID).isSome
  · cases hdc : cfg.driverConfig with
    | none => simp [StartTask, hg, hdc] at hs
    | some driverConfig =>
      cases hc : (CreateAndStartVM d.config e.create d.fs driverConfig cfg.ID).2 with
      | error m => simp [StartTask, hg, hdc, hc] at hs
      | ok v =>
        cases hset : e.setDriverStateOk
        · simp [StartTask, hg, hdc, hc, hset] at hs
        · refine ⟨driverConfig, v, rfl, hc, ?_⟩
          simp only [StartTask, hg, hdc, hc, hset, Bool.not_true, Bool.false_eq_true, if_false]
          exact taskStore_Get_Set _ _ _
  · simp [StartTask, hg] at hs

/-- A `StartTask` whose spec has a count below one returns an error and leaves
the registry as it was. -/
theorem StartTask_rejects_nonpositive (d : Driver) (e : StartEnv) (cfg : DTaskConfig)
    (tc : TaskConfig) (hdec : cfg.driverConfig = some tc)
    (hbad : tc.VpuCount ≤ 0 ∨ tc.MemSize ≤ 0) :
    (StartTask d e cfg).2.isErr = true ∧ (StartTask d e cfg).1.tasks = d.tasks := by
  cases hg : (d.tasks.Get cfg.ID).isSome
  · cases hc : (CreateAndStartVM d.config e.create d.fs tc cfg.ID).2 with
    | error m =>
      simp [StartTask, hg, hdec, hc, Outcome.isErr]
    | ok v =>
      obtain ⟨h1, h2, _⟩ := CreateAndStartVM_ok_counts _ _ _ _ _ v hc
      rcases hbad with hb | hb <;> omega
  · simp [StartTask, hg, Outcome.isErr]

/-- C16: for every `StartTask` call that is accepted (returns a handle and
inserts the task into the registry), the decoded task spec has
`vcpu_count > 0` and `memory_mib > 0`; a spec with `vcpu_count <= 0` or
`memory_mib <= 0` is rejected: `StartTask` returns an error and the registry
is left as it was, with no entry for a task that had none. -/
theorem StartTask_accepted_positive (d : Driver) (e : StartEnv) (cfg : DTaskConfig)
    (tc : TaskConfig) (hdec : cfg.driverConfig = some tc) :
    (∀ out, (StartTask d e cfg).2 = .ok out →
      (0 < tc.VpuCount ∧ 0 < tc.MemSize) ∧
      ((StartTask d e cfg).1.tasks.Get cfg.ID).isSome = true) ∧
    ((tc.VpuCount ≤ 0 ∨ tc.MemSize ≤ 0) →
      (StartTask d e cfg).2.isErr = true ∧ (StartTask d e cfg).1.tasks = d.tasks ∧
      (d.tasks.Get cfg.ID = none → (StartTask d e cfg).1.tasks.Get cfg.ID = none)) := by
  refine ⟨?_, ?_⟩
  · intro out hs
    obtain ⟨tc2, v, hd2, hc, hget⟩ := StartTask_ok_form d e cfg out hs
    rw [hdec] at hd2
    have htc : tc = tc2 := Option.some.inj hd2
    subst htc
    obtain ⟨h1, h2, _⟩ := CreateAndStartVM_ok_counts _ _ _ _ _ v hc
    refine ⟨⟨by omega, by omega⟩, ?_⟩
    rw [hget]
    rfl
  · intro hbad
    obtain ⟨herr, htasks⟩ := StartTask_rejects_nonpositive d e cfg tc hdec hbad
    refine ⟨herr, htasks, ?_⟩
    intro hnone
    rw [htasks]
    exact hnone

/-- C16 at task `t1`, accepted with one vCPU and 128 MiB, and at task `t5`,
rejected with no vCPU and negative memory. -/
theorem StartTask_accepted_positive_witness :
    (StartTask emptyDriver startEnvOk (exampleTask "t1")).2 = .ok (exampleOut "t1") ∧
      ((0 < exampleTaskConfig.VpuCount ∧ 0 < exampleTaskConfig.MemSize) ∧
        ((StartTask emptyDriver startEnvOk (exampleTask "t1")).1.tasks.Get
          (exampleTask "t1").ID).isSome = true) ∧
      ((StartTask emptyDriver startEnvOk nonPositiveTask).2.isErr = true ∧
        (StartTask emptyDriver startEnvOk nonPositiveTask).1.tasks = emptyDriver.tasks ∧
        (emptyDriver.tasks.Get nonPositiveTask.ID = none →
          (StartTask emptyDriver startEnvOk nonPositiveTask).1.tasks.Get nonPositiveTask.ID
            = none)) :=
  ⟨by rfl,
    (StartTask_accepted_positive emptyDriver startEnvOk (exampleTask "t1") exampleTaskConfig
      rfl).1 (exampleOut "t1") (by rfl),
    (StartTask_accepted_positive emptyDriver startEnvOk nonPositiveTask nonPositiveTaskConfig
      rfl).2 (Or.inl (by decide))⟩

/-! ## Driver cancellation and the monitor -/

/-- In the loop of `run`, a tick leaves the loop by return exactly on a probe
error or a status Stopped or Unknown. -/
theorem runTick_returned_iff (h : taskHandle) (probe : Outcome VMStatus) (now : Nat)
    (hm : h.monitor = .looping) (hr : h.exitResult ≠ none) :
    (runTick h probe now).monitor = .returned ↔
      ((∃ msg, probe = .err msg) ∨
        ∃ st, probe = .ok st ∧ (st.State = VMStateStopped ∨ st.State = VMStateUnknown)) := by
  obtain ⟨r, hx⟩ := Option.ne_none_iff_exists'.mp hr
  have d1 : VMStateRunning ≠ VMStateStopped := by decide
  have d2 : VMStateRunning ≠ VMStateUnknown := by decide
  have d3 : VMStateStopped ≠ VMStateRunning := by decide
  have d5 : VMStateUnknown ≠ VMStateRunning := by decide
  have d6 : VMStateUnknown ≠ VMStateStopped := by decide
  cases probe with
  | fault => simp [runTick]
  | err msg => simp [runTick, hx]
  | ok st =>
    by_cases h1 : st.State = VMStateRunning
    · simp [runTick, h1, hm, d1, d2]
    · by_cases h2 : st.State = VMStateStopped
      · cases hc : st.ExitCode <;> simp [runTick, h2, hx, hc, d3]
      · by_cases h3 : st.State = VMStateUnknown
        · simp [runTick, h3, d5, d6]
        · simp [runTick, h1, h2, h3, hm]

/-- C17 as stated fails: after the driver context is cancelled, a tick whose
probe reports Running leaves the monitor in its loop, tick after tick. -/
theorem cancelled_monitor_keeps_running :
    (signalShutdown ⟨false, loopingHandle⟩).driverCancelled = true ∧
      GetVMStatus loopingHandle.vmInfo probeAlive
        = .ok { State := VMStateRunning, PID := 4242 } ∧
      (worldTick (signalShutdown ⟨false, loopingHandle⟩)
        (GetVMStatus loopingHandle.vmInfo probeAlive) 1005).h.monitor = .looping ∧
      (worldTick (worldTick (signalShutdown ⟨false, loopingHandle⟩)
        (GetVMStatus loopingHandle.vmInfo probeAlive) 1005)
        (GetVMStatus loopingHandle.vmInfo probeAlive) 1010).h.monitor = .looping ∧
      (worldTick (signalShutdown ⟨false, loopingHandle⟩)
        (GetVMStatus loopingHandle.vmInfo probeAlive) 1005).h.monitor ≠ .returned := by
  refine ⟨rfl, by rfl, by rfl, by rfl, ?_⟩
  have hl : (worldTick (signalShutdown ⟨false, loopingHandle⟩)
      (GetVMStatus loopingHandle.vmInfo probeAlive) 1005).h.monitor = .looping := by rfl
  rw [hl]
  decide

/-- C17 amended: the monitor does not observe the driver's cancellation scope.
A tick after cancellation does to the handle what it does without
cancellation: the monitor returns at that tick exactly when the probe reports
Stopped, Unknown or an error, and stays in its loop when the probe reports
Running. The tick leaves the cancellation flag as it is. -/
theorem worldTick_ignores_cancel (w : MonitorWorld) (probe : Outcome VMStatus) (now : Nat)
    (hm : w.h.monitor = .looping) (hr : w.h.exitResult ≠ none) :
    (worldTick (signalShutdown w) probe now).driverCancelled = true ∧
      (worldTick (signalShutdown w) probe now).h = (worldTick w probe now).h ∧
      ((worldTick (signalShutdown w) probe now).h.monitor = .returned ↔
        ((∃ msg, probe = .err msg) ∨
          ∃ st, probe = .ok st ∧ (st.State = VMStateStopped ∨ st.State = VMStateUnknown))) ∧
      (∀ st, probe = .ok st → st.State = VMStateRunning →
        (worldTick (signalShutdown w) probe now).h.monitor = .looping ∧
        (worldTick (signalShutdown w) probe now).h.procState = .TaskStateRunning) := by
  refine ⟨rfl, rfl, runTick_returned_iff w.h probe now hm hr, ?_⟩
  intro st hp hst
  subst hp
  simp [worldTick, signalShutdown, runTick, hst, hm]

/-- C17 amended, at task `t1` after cancellation: the monitor returns when the
probe finds the VM process gone. -/
theorem worldTick_ignores_cancel_witness :
    (worldTick (signalShutdown ⟨false, loopingHandle⟩)
        (GetVMStatus loopingHandle.vmInfo probeGone) 1010).h.monitor = .returned :=
  (worldTick_ignores_cancel ⟨false, loopingHandle⟩
      (GetVMStatus loopingHandle.vmInfo probeGone) 1010 (by rfl) (by decide)).2.2.1.mpr
    (Or.inr ⟨{ State := VMStateStopped, PID := 4242 }, by rfl, Or.inl rfl⟩)

/-! ## Signals -/

/-- C18: on a registered task whose VM record and machine handle are present
and whose process is found (`Machine.PID()` and `os.FindProcess` succeed),
`SignalTask` passes SIGINT to the VM process for a name that is not in the
lookup table and the mapped signal for a name that is; on a registered task
whose VM record or machine handle is absent it returns an error and sends no
signal. -/
theorem SignalTask_delivery (d : Driver) (e : SignalEnv) (taskID signal : String)
    (h : taskHandle) (hget : d.tasks.Get taskID = some h) :
    (∀ v m p, h.vmInfo = some v → v.Machine = some m → e.pid = some p →
      e.findProcessOk = true →
      (e.SignalLookup signal = none →
        (SignalTask d e taskID signal).2 = some osInterrupt) ∧
      (∀ s, e.SignalLookup signal = some s → (SignalTask d e taskID signal).2 = some s)) ∧
    ((h.vmInfo = none ∨ ∃ v, h.vmInfo = some v ∧ v.Machine = none) →
      (SignalTask d e taskID signal).1.isErr = true ∧
      (SignalTask d e taskID signal).2 = none) := by
  refine ⟨?_, ?_⟩
  · intro v m p hv hm hp hf
    refine ⟨?_, ?_⟩
    · intro hl
      unfold SignalTask
      simp only [hget, hv, Option.bind, hm, hp, hf, hl]
      cases e.signalErr <;> rfl
    · intro s hl
      unfold SignalTask
      simp only [hget, hv, Option.bind, hm, hp, hf, hl]
      cases e.signalErr <;> rfl
  · intro habs
    unfold SignalTask
    rcases habs with hv | ⟨v, hv, hm⟩
    · simp [hget, hv, Outcome.isErr]
    · simp [hget, hv, hm, Outcome.isErr]

/-- C18 at the running task `t1`: the unknown name `SIGFOO` sends SIGINT, the
name `SIGTERM` sends signal 15. -/
theorem SignalTask_delivery_witness :
    (SignalTask runningDriver signalEnvOk "t1" "SIGFOO").2 = some osInterrupt ∧
      (SignalTask runningDriver signalEnvOk "t1" "SIGTERM").2 = some 15 :=
  ⟨((SignalTask_delivery runningDriver signalEnvOk "t1" "SIGFOO" exampleHandle (by rfl)).1
      exampleVMInfo _ 4242 rfl rfl rfl rfl).1 (by rfl),
    ((SignalTask_delivery runningDriver signalEnvOk "t1" "SIGTERM" exampleHandle (by rfl)).1
      exampleVMInfo _ 4242 rfl rfl rfl rfl).2 15 (by rfl)⟩

/-! ## Exit results -/

/-- A status returned by `GetVMStatus` carries neither exit code nor exit time. -/
theorem GetVMStatus_no_exit_info (vi : Option VMInfo) (e : ProbeEnv) (st : VMStatus)
    (h : GetVMStatus vi e = .ok st) : st.ExitCode = none ∧ st.ExitedAt = none := by
  unfold GetVMStatus at h
  cases vi with
  | none => simp at h
  | some v =>
    simp only at h
    cases hm : v.Machine with
    | none =>
      simp only [hm, Outcome.ok.injEq] at h
      subst h
      exact ⟨rfl, rfl⟩
    | some m =>
      simp only [hm] at h
      cases hp : e.pid with
      | none =>
        simp only [hp, Outcome.ok.injEq] at h
        subst h
        exact ⟨rfl, rfl⟩
      | some p =>
        simp only [hp] at h
        split_ifs at h <;>
          (simp only [Outcome.ok.injEq] at h
           subst h
           exact ⟨rfl, rfl⟩)

/-- On a present VM record `GetVMStatus` returns a status. -/
theorem GetVMStatus_record_ok (v : VMInfo) (e : ProbeEnv) :
    ∃ st, GetVMStatus (some v) e = .ok st := by
  unfold GetVMStatus
  simp only
  cases v.Machine with
  | none => exact ⟨_, rfl⟩
  | some m =>
    simp only
    cases e.pid with
    | none => exact ⟨_, rfl⟩
    | some p =>
      simp only
      split_ifs <;> exact ⟨_, rfl⟩

/-- Never does `GetVMStatus` return an error value. -/
theorem GetVMStatus_not_err (vi : Option VMInfo) (e : ProbeEnv) (msg : String) :
    GetVMStatus vi e ≠ .err msg := by
  unfold GetVMStatus
  cases vi with
  | none => simp
  | some v =>
    simp only
    cases v.Machine with
    | none => simp
    | some m =>
      simp only
      cases e.pid with
      | none => simp
      | some p =>
        simp only
        split_ifs <;> simp

/-- A step of a monitor over `GetVMStatus` leaves a handle whose exit result is
nil or the default one with an exit result that is nil or the default one. -/
theorem monitorStep_exitResult_default (h : taskHandle) (e : ProbeEnv) (now : Nat)
    (hinv : h.exitResult = none ∨ h.exitResult = some {}) :
    (monitorStep h e now).exitResult = none ∨ (monitorStep h e now).exitResult = some {} := by
  unfold monitorStep
  cases h.monitor
  · exact hinv
  · right
    rcases hinv with hx | hx <;> simp [runStart, hx]
  · simp only
    cases hp : GetVMStatus h.vmInfo e with
    | fault => exact hinv
    | err msg => exact absurd hp (GetVMStatus_not_err _ _ _)
    | ok st =>
      obtain ⟨hc, _⟩ := GetVMStatus_no_exit_info _ _ _ hp
      have hsame : (runTick h (.ok st) now).exitResult = h.exitResult := by
        unfold runTick
        simp only [hc]
        split_ifs <;> rfl
      rw [hsame]
      exact hinv
  · exact hinv
  · exact hinv

/-- A run of a monitor over `GetVMStatus` keeps the exit result nil or default. -/
theorem runMonitor_exitResult_default (steps : List (ProbeEnv × Nat)) (h : taskHandle)
    (hinv : h.exitResult = none ∨ h.exitResult = some {}) :
    (runMonitor h steps).exitResult = none ∨ (runMonitor h steps).exitResult = some {} := by
  induction steps generalizing h with
  | nil => exact hinv
  | cons t ts ih => exact ih (monitorStep h t.1 t.2) (monitorStep_exitResult_default h t.1 t.2 hinv)

/-- A handle made by the driver starts with a nil exit result. -/
theorem DriverCreated_exitResult (h0 : taskHandle) (hc : DriverCreated h0) :
    h0.exitResult = none := by
  rcases hc with ⟨d, e, cfg, out, hs, hget⟩ | ⟨d, handle, id, hnew, hget⟩
  · obtain ⟨v, m, _, hh⟩ := StartTask_ok_handle d e cfg out hs
    rw [hget] at hh
    rw [Option.some.inj hh]
  · rw [RecoverTask_state, hnew] at hget
    cases hget

/-- C19: `GetVMStatus` on a VM record returns a status without exit code and
without exit time, and it returns an error value on no input, so the
probe-error branch of the monitor is never taken; and for every handle made by
the driver, in every state its monitor reaches, the exit result that the
waiter of `WaitTask` delivers has exit code 0 and no error. -/
theorem WaitTask_result_default (h0 : taskHandle) (steps : List (ProbeEnv × Nat))
    (r : ExitResult) (hc : DriverCreated h0) (hw : waitPoll (runMonitor h0 steps) = some r) :
    (∀ v e, ∃ st, GetVMStatus (some v) e = .ok st ∧ st.ExitCode = none ∧ st.ExitedAt = none) ∧
      (∀ vi e msg, GetVMStatus vi e ≠ .err msg) ∧
      r.ExitCode = 0 ∧ r.Err = none ∧ r = {} := by
  refine ⟨?_, GetVMStatus_not_err, ?_⟩
  · intro v e
    obtain ⟨st, hst⟩ := GetVMStatus_record_ok v e
    exact ⟨st, hst, GetVMStatus_no_exit_info _ _ _ hst⟩
  · have hinv := runMonitor_exitResult_default steps h0 (Or.inl (DriverCreated_exitResult h0 hc))
    have hr : r = {} := by
      unfold waitPoll at hw
      split_ifs at hw
      rcases hinv with hx | hx
      · simp only [hx, Option.some.injEq] at hw
        exact hw.symm
      · simp only [hx, Option.some.injEq] at hw
        exact hw.symm
    subst hr
    exact ⟨rfl, rfl, rfl⟩

/-- C19 at task `t1`, whose monitor found the VM process gone at time 1010. -/
theorem WaitTask_result_default_witness :
    waitPoll (runMonitor exampleHandle [(probeAlive, 1000), (probeAlive, 1005),
        (probeGone, 1010)]) = some {} ∧
      (∀ v e, ∃ st, GetVMStatus (some v) e = .ok st ∧ st.ExitCode = none ∧
        st.ExitedAt = none) ∧
      (∀ vi e msg, GetVMStatus vi e ≠ .err msg) ∧
      ({} : ExitResult).ExitCode = 0 ∧ ({} : ExitResult).Err = none ∧
      ({} : ExitResult) = {} :=
  ⟨by rfl,
    WaitTask_result_default exampleHandle
      [(probeAlive, 1000), (probeAlive, 1005), (probeGone, 1010)] {}
      (Or.inl ⟨emptyDriver, startEnvOk, exampleTask "t1", exampleOut "t1", by rfl, by rfl⟩)
      (by rfl)⟩

end Litegix
